import Mathlib

/-!
# Verification of the expression_parser pipeline

A shallow embedding of the `expression_parser` Python package
(`config_validator.py`, `expression_builder.py`, `evaluator.py`, `filters.py`,
`aggregations.py`, `parser.py`) together with proofs about the properties the
specification states.

Modelling conventions:
* Python / pandas numbers are modelled as rationals (`ℚ`); IEEE-754 rounding is
  idealised away.  Python `bool` is a subtype of `int`
  (`isinstance(True, int)` holds), so every dynamic number check below also
  accepts booleans, and booleans behave as `1`/`0` in arithmetic and
  comparisons.
* JSON-shaped config values are a single inductive type `J`; Python dicts are
  association lists with string keys (JSON keys are strings) and unique keys,
  where lookup takes the first matching entry.
* Exceptions are an explicit error type `PyErr` threaded through `Except`.
  The distinct exception classes of the code are distinct constructors; the
  message strings are not modelled.  Host-level `TypeError`s (mis-typed
  comparisons, `len()` of a scalar, `pd.concat` of a scalar, aggregating
  non-numeric data) are all the single constructor `.typeError`, and the other
  assorted host errors on wildly malformed inputs (indexing a non-dict, or
  iterating a non-list) are also approximated by `.typeError`; every such site
  only ever models a *failure*, never a success, so the success set of each
  function is exactly that of the code.
* pandas frames/series carry their integer index labels with every row, which
  is how filtering preserves original row identity; the dtype of a column is
  stored per column, which is how an empty filtered column keeps its dtype.
  Index *alignment* between two series is only modelled for identical indexes
  (the only case arising in this pipeline, where every series descends from
  the same frame); differing indexes are mapped to `.typeError` and are proved
  unreachable where needed.  Series carry their pandas `name` metadata
  (`df[c]` is named `c`, arithmetic combines names the pandas way, and
  `pd.Series(range(...), name="index")` is named `"index"`): `apply_aggregation`
  builds `pd.concat([df[group_by], series], axis=1)`, and when the value
  series is named like the group column the concat result has two identically
  named columns, so `temp_df.groupby(group_by)` raises
  `ValueError ("Grouper ... not 1-dimensional")`, modelled as `.valueError`.
-/

namespace ExpressionParserSpec

/-- A scalar value held in a table cell (numeric, string, or boolean). -/
inductive Cell where
  | num (q : ℚ)
  | str (s : String)
  | bool (b : Bool)
deriving DecidableEq, Repr

/-- A JSON-shaped Python value, as found in configuration objects. -/
inductive J where
  | num (q : ℚ)
  | str (s : String)
  | bool (b : Bool)
  | null
  | arr (xs : List J)
  | obj (fields : List (String × J))

/-- The exception kinds the pipeline can raise.  `configError` is
`ConfigValidationError`, `invalidExpressionFormat` is the
`ValueError("Invalid expression format…")` of `parse_expression`, `keyError`
is a Python `KeyError` (missing dict key or missing DataFrame column),
`typeError` stands for host-level `TypeError`-class failures, `valueError` is
the host-level `ValueError` that `groupby` raises on a duplicated column name
(`Grouper ... not 1-dimensional`), and `notImplemented` is the
`NotImplementedError` for `FunctionNode`. -/
inductive PyErr where
  | configError
  | unsupportedOperator
  | unsupportedAggregation
  | invalidExpressionFormat
  | keyError
  | typeError
  | valueError
  | notImplemented
deriving DecidableEq, Repr

/-- Python dict lookup on an association list (first match). -/
def jLookup : List (String × J) → String → Option J
  | [], _ => none
  | (k, v) :: rest, key => if k == key then some v else jLookup rest key

/-- `key in d` for a Python dict. -/
def jHasKey (fields : List (String × J)) (key : String) : Bool :=
  (jLookup fields key).isSome

/-- `d[key]`: raises `KeyError` when the key is absent. -/
def dictGet (fields : List (String × J)) (key : String) : Except PyErr J :=
  match jLookup fields key with
  | some v => Except.ok v
  | none => Except.error .keyError

/-- `isinstance(x, (int, float))`.  True for Python booleans as well, since
`bool` is a subclass of `int`. -/
def jIsNumber : J → Bool
  | .num _ => true
  | .bool _ => true
  | _ => false

/-- `isinstance(x, (int, float, str))` (again including booleans). -/
def jIsScalar : J → Bool
  | .num _ => true
  | .bool _ => true
  | .str _ => true
  | _ => false

/-- Python truthiness: `not config`. -/
def jFalsy : J → Bool
  | .null => true
  | .bool b => !b
  | .num q => q == 0
  | .str s => s == ""
  | .arr xs => xs.isEmpty
  | .obj fields => fields.isEmpty

/-- `x in S` / `S.get(x)` for a set/dict keyed by strings: an unhashable `x`
(list or dict) raises `TypeError`; otherwise the result is the key when `x`
is a member string and `none` when it is not. -/
def pyStrKeyGet (x : J) (keys : List String) : Except PyErr (Option String) :=
  match x with
  | .arr _ => Except.error .typeError
  | .obj _ => Except.error .typeError
  | .str s => Except.ok (if keys.contains s then some s else none)
  | _ => Except.ok none

/-- `j in listOfColumnNames` (Python `in` on a list compares by `==`;
a non-string J never equals a string). -/
def jInStrList (j : J) (l : List String) : Bool :=
  match j with
  | .str s => l.contains s
  | _ => false

theorem jLookup_sizeOf_lt {fields : List (String × J)} {key : String} {v : J}
    (h : jLookup fields key = some v) : sizeOf v < sizeOf (J.obj fields) := by
  induction fields with
  | nil => simp [jLookup] at h
  | cons p rest ih =>
      obtain ⟨k, w⟩ := p
      rw [jLookup] at h
      split at h
      · cases h
        simp
        omega
      · have := ih h
        simp at this ⊢
        omega

/-! ## AST (`ast.py`) -/

/-- AST node variants (`ColumnRefNode`, `LiteralNode`, `BinaryOpNode`,
`FunctionNode`).  A literal's payload is any Python scalar the builder lets
through (numbers, and booleans via the `int` subtyping). -/
inductive ASTNode where
  | columnRef (column : String)
  | literal (value : Cell)
  | binaryOp (op : String) (left : ASTNode) (right : ASTNode)
  | functionNode (name : String) (arg : ASTNode)
deriving DecidableEq, Repr

/-! ## Expression builder (`expression_builder.py`) -/

/-- `SUPPORTED_BINARY_OPS = {"+", "-"}`. -/
def SUPPORTED_BINARY_OPS : List String := ["+", "-"]

/-- `parse_expression(expr)`: string → column reference, number → literal
(booleans included, because `isinstance(True, (int, float))` holds), dict with
an `op` key → binary node after recursively parsing `left` and `right` (their
absence is a `KeyError`, an unsupported `op` is `UnsupportedOperatorError`),
anything else → `ValueError("Invalid expression format")`. -/
def parse_expression (expr : J) : Except PyErr ASTNode :=
  match expr with
  | .str s => Except.ok (.columnRef s)
  | .num q => Except.ok (.literal (.num q))
  | .bool b => Except.ok (.literal (.bool b))
  | .obj fields =>
      match jLookup fields "op" with
      | some op =>
          match hl : jLookup fields "left" with
          | none => Except.error .keyError
          | some lj =>
              match parse_expression lj with
              | .error e => Except.error e
              | .ok l =>
                  match hr : jLookup fields "right" with
                  | none => Except.error .keyError
                  | some rj =>
                      match parse_expression rj with
                      | .error e => Except.error e
                      | .ok r =>
                          match pyStrKeyGet op SUPPORTED_BINARY_OPS with
                          | .error e => Except.error e
                          | .ok none => Except.error .unsupportedOperator
                          | .ok (some s) => Except.ok (.binaryOp s l r)
      | none => Except.error .invalidExpressionFormat
  | _ => Except.error .invalidExpressionFormat
termination_by sizeOf expr
decreasing_by
  · exact jLookup_sizeOf_lt hl
  · exact jLookup_sizeOf_lt hr

/-! ## Tables and series (the pandas fragment the pipeline uses) -/

/-- A pandas dtype, kept as per-column metadata (this is what makes an empty
filtered column remember its value type). -/
inductive Dtype where
  | int64
  | float64
  | object
  | boolDt
deriving DecidableEq, Repr

/-- A pandas Series: a dtype, (index label, value) pairs, and the pandas
`name` attribute (`df[c]` is named `c`; a computed series may be unnamed).
Index labels are cells: integers for table rows, group keys after a
`groupby`. -/
structure Series where
  dtype : Dtype
  data : List (Cell × Cell)
  name : Option String
deriving DecidableEq, Repr

/-- A pandas DataFrame: named, dtyped columns and rows carrying their index
label.  Well-formed frames have `cols.length` cells per row and distinct
column names (pandas frames built from a dict always do). -/
structure DataFrame where
  cols : List (String × Dtype)
  rows : List (Cell × List Cell)
deriving DecidableEq, Repr

/-- `list(df.columns)`. -/
def colNames (df : DataFrame) : List String := df.cols.map Prod.fst

/-- The index labels of the frame, in row order. -/
def rowLabels (df : DataFrame) : List Cell := df.rows.map Prod.fst

/-- A frame is well-formed when every row has one cell per column. -/
def DataFrame.WF (df : DataFrame) : Prop :=
  (∀ r ∈ df.rows, r.2.length = df.cols.length) ∧ (colNames df).Nodup

/-- `df[name]` for a string name: the column as a Series (its dtype and its
(label, value) pairs), or `KeyError`. -/
def getCol (df : DataFrame) (name : String) : Except PyErr Series :=
  match df.cols.findIdx? (fun p => p.1 == name) with
  | none => Except.error .keyError
  | some i =>
      Except.ok ⟨(df.cols[i]?.map Prod.snd).getD .object,
                 df.rows.map (fun r => (r.1, r.2[i]?.getD (.num 0))),
                 some name⟩

/-- `df[j]` for an arbitrary key (a non-string key matches no column). -/
def getColJ (df : DataFrame) (j : J) : Except PyErr Series :=
  match j with
  | .str s => getCol df s
  | _ => Except.error .keyError

/-- The result of evaluating an AST: a scalar or a Series
(`evaluate_ast` "Returns pd.Series for columns, scalar for literals"). -/
inductive Value where
  | scalar (c : Cell)
  | series (s : Series)
deriving DecidableEq, Repr

/-! ## Evaluator (`evaluator.py`) -/

/-- Numeric view of a cell; Python booleans are the integers 1/0. -/
def Cell.toNum? : Cell → Option ℚ
  | .num q => some q
  | .bool b => some (if b then 1 else 0)
  | .str _ => none

/-- dtype of a Python scalar (an integral rational is an `int`). -/
def Cell.dtypeOf : Cell → Dtype
  | .num q => if q.den == 1 then .int64 else .float64
  | .str _ => .object
  | .bool _ => .boolDt

/-- dtype promotion for elementwise `+`/`-` results (numeric promotion; bool
operands promote like ints; strings stay `object`).  No verified property
depends on this metadata. -/
def Dtype.joinArith : Dtype → Dtype → Dtype
  | .object, _ => .object
  | _, .object => .object
  | .float64, _ => .float64
  | _, .float64 => .float64
  | _, _ => .int64

/-- Scalar `left + right`: numbers (and bools) add; strings concatenate;
any other mix raises `TypeError`. -/
def cellAdd (a b : Cell) : Except PyErr Cell :=
  match a.toNum?, b.toNum? with
  | some x, some y => Except.ok (.num (x + y))
  | _, _ =>
      match a, b with
      | .str x, .str y => Except.ok (.str (x ++ y))
      | _, _ => Except.error .typeError

/-- Scalar `left - right`: numbers (and bools) subtract; anything else
raises `TypeError`. -/
def cellSub (a b : Cell) : Except PyErr Cell :=
  match a.toNum?, b.toNum? with
  | some x, some y => Except.ok (.num (x - y))
  | _, _ => Except.error .typeError

/-- Lift a scalar operation to Series/scalar operands the way the pandas
`+`/`-` overloads behave: scalar∘scalar is a scalar, a scalar broadcasts over
a series, and two series combine positionally when their indexes coincide
(alignment of differing indexes is not modelled; in this pipeline every
series carries the index of the one frame in scope).  Result names follow
pandas: a scalar operand keeps the series' name, two series keep their name
when the names agree and are unnamed otherwise. -/
def mapPairsM (f : Cell → Except PyErr Cell) :
    List (Cell × Cell) → Except PyErr (List (Cell × Cell))
  | [] => Except.ok []
  | p :: rest => do
      let c ← f p.2
      let cs ← mapPairsM f rest
      Except.ok ((p.1, c) :: cs)

def zipPairsM (f : Cell → Cell → Except PyErr Cell) :
    List (Cell × Cell) → List (Cell × Cell) → Except PyErr (List (Cell × Cell))
  | [], _ => Except.ok []
  | _, [] => Except.ok []
  | p :: ps, q :: qs => do
      let c ← f p.2 q.2
      let cs ← zipPairsM f ps qs
      Except.ok ((p.1, c) :: cs)

def liftBinOp (f : Cell → Cell → Except PyErr Cell) (l r : Value) :
    Except PyErr Value :=
  match l, r with
  | .scalar a, .scalar b => do Except.ok (.scalar (← f a b))
  | .scalar a, .series s => do
      let d ← mapPairsM (fun c => f a c) s.data
      Except.ok (.series ⟨Dtype.joinArith a.dtypeOf s.dtype, d, s.name⟩)
  | .series s, .scalar b => do
      let d ← mapPairsM (fun c => f c b) s.data
      Except.ok (.series ⟨Dtype.joinArith s.dtype b.dtypeOf, d, s.name⟩)
  | .series s, .series t =>
      if s.data.map Prod.fst = t.data.map Prod.fst then do
        let d ← zipPairsM f s.data t.data
        Except.ok (.series ⟨Dtype.joinArith s.dtype t.dtype, d,
          if s.name = t.name then s.name else none⟩)
      else Except.error .typeError

/-- `BINARY_OPERATORS = {"+": λ l r. l + r, "-": λ l r. l - r}`. -/
def BINARY_OPERATORS : List (String × (Value → Value → Except PyErr Value)) :=
  [("+", liftBinOp cellAdd), ("-", liftBinOp cellSub)]

/-- `evaluate_ast(df, node)`: column references index the frame, literals are
scalars, binary nodes evaluate both operands and dispatch through the
registry (`UnsupportedOperatorError` when absent), function nodes raise
`NotImplementedError`. -/
def evaluate_ast (df : DataFrame) : ASTNode → Except PyErr Value
  | .columnRef c => do Except.ok (.series (← getCol df c))
  | .literal v => Except.ok (.scalar v)
  | .binaryOp op l r => do
      let lv ← evaluate_ast df l
      let rv ← evaluate_ast df r
      match BINARY_OPERATORS.find? (fun p => p.1 == op) with
      | some p => p.2 lv rv
      | none => Except.error .unsupportedOperator
  | .functionNode _ _ => Except.error .notImplemented

/-! ## Filters (`filters.py`) -/

/-- `FILTER_OPERATORS = {">", "<", "=="}` (the registry's key set). -/
def FILTER_OPERATORS : List String := [">", "<", "=="]

/-- `cell > v`: numeric against numeric (bools count as numbers) or string
against string; any other mix raises `TypeError`. -/
def cellGtJ (c : Cell) (v : J) : Except PyErr Bool :=
  match c.toNum?, v with
  | some a, .num b => Except.ok (decide (b < a))
  | some a, .bool b => Except.ok (decide ((if b then (1 : ℚ) else 0) < a))
  | _, _ =>
      match c, v with
      | .str a, .str b => Except.ok (decide (b < a))
      | _, _ => Except.error .typeError

/-- `cell < v`, same typing rules as `cellGtJ`. -/
def cellLtJ (c : Cell) (v : J) : Except PyErr Bool :=
  match c.toNum?, v with
  | some a, .num b => Except.ok (decide (a < b))
  | some a, .bool b => Except.ok (decide (a < (if b then (1 : ℚ) else 0)))
  | _, _ =>
      match c, v with
      | .str a, .str b => Except.ok (decide (a < b))
      | _, _ => Except.error .typeError

/-- `cell == v`: numeric/numeric and string/string compare, any other
scalar mix is simply unequal (`5 == "5"` is `False`, never an error).
List/dict comparands (pandas would try elementwise alignment) are not
modelled and map to `TypeError`; the validator rejects them anyway. -/
def cellEqJ (c : Cell) (v : J) : Except PyErr Bool :=
  match v with
  | .arr _ => Except.error .typeError
  | .obj _ => Except.error .typeError
  | _ =>
      match c.toNum?, v with
      | some a, .num b => Except.ok (decide (a = b))
      | some a, .bool b => Except.ok (decide (a = (if b then (1 : ℚ) else 0)))
      | _, _ =>
          match c, v with
          | .str a, .str b => Except.ok (a == b)
          | _, _ => Except.ok false

/-- The comparison the registry's lambda `col op val` performs on one cell. -/
def cellCmp (op : String) (c : Cell) (v : J) : Except PyErr Bool :=
  if op = ">" then cellGtJ c v
  else if op = "<" then cellLtJ c v
  else if op = "==" then cellEqJ c v
  else Except.error .unsupportedOperator

/-- The boolean mask `filter_func(df[col], val)` computes elementwise over the
column's (label, value) pairs. -/
def buildMask (op : String) (v : J) :
    List (Cell × Cell) → Except PyErr (List Bool)
  | [] => Except.ok []
  | p :: rest => do
      let b ← cellCmp op p.2 v
      let bs ← buildMask op v rest
      Except.ok (b :: bs)

/-- `df[mask]`: keep the rows whose mask entry is true (labels ride along,
which is exactly how pandas preserves the original index). -/
def selectRows (rows : List (Cell × List Cell)) (mask : List Bool) :
    List (Cell × List Cell) :=
  ((rows.zip mask).filter (fun rb => rb.2)).map (fun rb => rb.1)

/-- One iteration of the `apply_filters` loop: read `column`/`op`/`value`
(`KeyError` when absent), look the operator up in the registry
(`UnsupportedOperatorError` when unknown), build the boolean mask from
`df[col] op value`, and narrow the frame.  A non-dict condition (the code
would fail subscripting it) is `.typeError`. -/
def filterStep (df : DataFrame) (f : J) : Except PyErr DataFrame :=
  match f with
  | .obj kvs => do
      let colJ ← dictGet kvs "column"
      let opJ ← dictGet kvs "op"
      let valJ ← dictGet kvs "value"
      let op? ← pyStrKeyGet opJ FILTER_OPERATORS
      match op? with
      | none => Except.error .unsupportedOperator
      | some op => do
          let col ← getColJ df colJ
          let mask ← buildMask op valJ col.data
          Except.ok { df with rows := selectRows df.rows mask }
  | _ => Except.error .typeError

/-- `apply_filters(df, filters)`: apply the conditions in order, each
narrowing the frame the previous one produced. -/
def apply_filters (df : DataFrame) (filters : List J) : Except PyErr DataFrame :=
  match filters with
  | [] => Except.ok df
  | f :: rest => do apply_filters (← filterStep df f) rest

/-! ## Aggregations (`aggregations.py`) -/

/-- `AGGREGATION_FUNCTIONS = {"mean": "mean", "sum": "sum"}` (its key set). -/
def AGGREGATION_FUNCTIONS : List String := ["mean", "sum"]

/-- Total order used for pandas' ascending group-key ordering: numbers (and
bools, which are numbers) by value, strings lexicographically, and numbers
before strings (a mixed-type key column would not sort in pandas; the order
across kinds only pads the relation to a total one). -/
def cellLeB (a b : Cell) : Bool :=
  match a.toNum?, b.toNum? with
  | some x, some y => decide (x ≤ y)
  | some _, none => true
  | none, some _ => false
  | none, none =>
      match a, b with
      | .str x, .str y => decide (x ≤ y)
      | _, _ => true

def cellLeP (a b : Cell) : Prop := cellLeB a b = true

instance : DecidableRel cellLeP := fun a b => by
  unfold cellLeP; infer_instance

/-- All-numeric view of a value list (`none` when any entry is
non-numeric). -/
def allNums? : List Cell → Option (List ℚ)
  | [] => some []
  | c :: rest =>
      match c.toNum?, allNums? rest with
      | some x, some xs => some (x :: xs)
      | _, _ => none

/-- All-string view of a value list. -/
def allStrs? : List Cell → Option (List String)
  | [] => some []
  | c :: rest =>
      match c, allStrs? rest with
      | .str s, some ss => some (s :: ss)
      | _, _ => none

/-- Group reduction: `mean` needs numeric values (non-numeric data raises
`TypeError`) and is the exact rational mean; `sum` adds numbers and
concatenates strings (pandas' object-dtype sum).  Groups are never empty
(keys come from the data), so the empty-mean guard is unreachable. -/
def reduceGroup (fn : String) (vs : List Cell) : Except PyErr Cell :=
  if fn = "mean" then
    match allNums? vs with
    | some xs =>
        if xs.length = 0 then Except.error .typeError
        else Except.ok (.num (xs.sum / xs.length))
    | none => Except.error .typeError
  else if fn = "sum" then
    match allNums? vs with
    | some xs => Except.ok (.num xs.sum)
    | none =>
        match allStrs? vs with
        | some ss => Except.ok (.str (String.join ss))
        | none => Except.error .typeError
  else Except.error .unsupportedAggregation

/-- dtype of the reduced series (`mean` is float, `sum` keeps the input's
numeric dtype with bools promoted). -/
def aggDtype (fn : String) (d : Dtype) : Dtype :=
  if fn = "mean" then .float64
  else match d with
       | .boolDt => .int64
       | d => d

/-- Reduce each group key in turn: the reduced value of key `k` comes from
the value components of the (key, value) pairs whose key is `k`. -/
def reduceKeys (fn : String) (pairs : List (Cell × Cell)) :
    List Cell → Except PyErr (List (Cell × Cell))
  | [] => Except.ok []
  | k :: ks => do
      let v ← reduceGroup fn
        ((pairs.filter (fun p => decide (p.1 = k))).map Prod.snd)
      let rest ← reduceKeys fn pairs ks
      Except.ok ((k, v) :: rest)

/-- `temp_df = pd.concat([df[group_by], series], axis=1)` names its two
columns after the group column and after `series.name`; when these coincide,
`temp_df.groupby(group_by)` finds the key ambiguous between two columns and
raises `ValueError ("Grouper for ... not 1-dimensional")`. -/
def seriesNameClash (group_by : J) (n : Option String) : Bool :=
  match group_by, n with
  | .str gname, some sname => gname == sname
  | _, _ => false

/-- `apply_aggregation(df, series, group_by, aggregation)`:
`pd.concat([df[group_by], series], axis=1)` (a scalar `series` raises
`TypeError`; concat of identically-indexed operands pairs them up — other
alignments are not modelled), then `aggregation["func"]` is looked up in the
registry (`UnsupportedAggregationError` when unknown), and
`temp_df.groupby(group_by).<func>().iloc[:, 0]` reduces each group, keys
sorted ascending and distinct — unless the value series is named like the
group column, in which case `groupby` raises `ValueError`. -/
def apply_aggregation (df : DataFrame) (series : Value) (group_by : J)
    (aggregation : J) : Except PyErr Series := do
  let g ← getColJ df group_by
  let s ← match series with
    | .series s => pure s
    | .scalar _ => Except.error .typeError
  if g.data.map Prod.fst = s.data.map Prod.fst then
    let funcJ ← match aggregation with
      | .obj kvs => dictGet kvs "func"
      | _ => Except.error .typeError
    let fn? ← pyStrKeyGet funcJ AGGREGATION_FUNCTIONS
    match fn? with
    | none => Except.error .unsupportedAggregation
    | some fn =>
        if seriesNameClash group_by s.name then Except.error .valueError
        else
          let pairs := (g.data.map Prod.snd).zip (s.data.map Prod.snd)
          let keys := List.insertionSort cellLeP ((pairs.map Prod.fst).dedup)
          let out ← reduceKeys fn pairs keys
          Except.ok ⟨aggDtype fn s.dtype, out, s.name⟩
  else Except.error .typeError

/-! ## Config validator (`config_validator.py`) -/

/-- `d.get(key)` (dict `.get` with `None` default; only ever reached on
values already known to be dicts). -/
def jGet (j : J) (key : String) : Option J :=
  match j with
  | .obj fields => jLookup fields key
  | _ => none

def jIsNumberOpt : Option J → Bool
  | some v => jIsNumber v
  | none => false

/-- `_validate_select_expression`: a string must name a known column, numbers
(and bools) pass, a dict needs `op`/`left`/`right` with a supported `op` and
valid children, everything else is invalid.  Every failure is
`ConfigValidationError` (an unhashable `op` raises `TypeError` from the
membership test, as in Python). -/
def _validate_select_expression (expr : J) (df_columns : List String) :
    Except PyErr Unit :=
  match expr with
  | .str s =>
      if df_columns.contains s then Except.ok () else Except.error .configError
  | .num _ => Except.ok ()
  | .bool _ => Except.ok ()
  | .obj fields =>
      match jLookup fields "op" with
      | none => Except.error .configError
      | some op =>
          if (jLookup fields "left").isNone || (jLookup fields "right").isNone then
            Except.error .configError
          else
            match pyStrKeyGet op SUPPORTED_BINARY_OPS with
            | .error e => Except.error e
            | .ok none => Except.error .configError
            | .ok (some _) =>
                match hl : jLookup fields "left", hr : jLookup fields "right" with
                | some l, some r => do
                    _validate_select_expression l df_columns
                    _validate_select_expression r df_columns
                | _, _ => Except.error .configError
  | _ => Except.error .configError
termination_by sizeOf expr
decreasing_by
  · exact jLookup_sizeOf_lt hl
  · exact jLookup_sizeOf_lt hr

/-- The body of the `for idx, f in enumerate(filters)` loop of
`_validate_filters`: each entry must be a dict containing
`column`/`op`/`value`, with a known column, a supported operator and a plain
scalar value. -/
def _validate_filter_item (f : J) (df_columns : List String) : Except PyErr Unit :=
  match f with
  | .obj kvs =>
      if !(jHasKey kvs "column") || !(jHasKey kvs "op") || !(jHasKey kvs "value") then
        Except.error .configError
      else do
        let colJ ← dictGet kvs "column"
        if !(jInStrList colJ df_columns) then Except.error .configError
        else do
          let opJ ← dictGet kvs "op"
          let op? ← pyStrKeyGet opJ FILTER_OPERATORS
          if op?.isNone then Except.error .configError
          else do
            let valJ ← dictGet kvs "value"
            if jIsScalar valJ then Except.ok () else Except.error .configError
  | _ => Except.error .configError

def _validate_filter_items (fs : List J) (df_columns : List String) :
    Except PyErr Unit :=
  match fs with
  | [] => Except.ok ()
  | f :: rest => do
      _validate_filter_item f df_columns
      _validate_filter_items rest df_columns

/-- `_validate_filters`: a non-list is rejected, an empty list is rejected,
then every entry is checked in order. -/
def _validate_filters (filters : J) (df_columns : List String) :
    Except PyErr Unit :=
  match filters with
  | .arr fs =>
      if fs.length = 0 then Except.error .configError
      else _validate_filter_items fs df_columns
  | _ => Except.error .configError

/-- `_validate_aggregation`: must be a dict with a `func` key naming a
supported aggregation. -/
def _validate_aggregation (aggregation : J) : Except PyErr Unit :=
  match aggregation with
  | .obj kvs =>
      match jLookup kvs "func" with
      | none => Except.error .configError
      | some funcJ =>
          match pyStrKeyGet funcJ AGGREGATION_FUNCTIONS with
          | .error e => Except.error e
          | .ok none => Except.error .configError
          | .ok (some _) => Except.ok ()
  | _ => Except.error .configError

/-- `valid_keys = {"select", "filter", "group_by", "aggregate", "name"}`. -/
def validConfigKeys : List String := ["select", "filter", "group_by", "aggregate", "name"]

/-- `validate_config(config, df_columns)`: non-empty, has `select`,
`select` validates, optional `filter` validates, `aggregate` requires a known
`group_by` column and validates, `group_by` without `aggregate` is rejected,
and no unknown keys.  A non-dict config always fails: a falsy one on the
emptiness check, a truthy one from the membership tests (a `TypeError` for
non-containers; truthy strings and lists end in `ConfigValidationError` or
`TypeError` depending on their contents, approximated here as
`ConfigValidationError`). -/
def validate_config (config : J) (df_columns : List String) : Except PyErr Unit :=
  match config with
  | .obj fields =>
      if fields.isEmpty then Except.error .configError
      else
        match jLookup fields "select" with
        | none => Except.error .configError
        | some sel => do
            _validate_select_expression sel df_columns
            (match jLookup fields "filter" with
             | some fl => _validate_filters fl df_columns
             | none => Except.ok ())
            (match jLookup fields "aggregate" with
             | some agg =>
                 match jLookup fields "group_by" with
                 | none => Except.error .configError
                 | some gb =>
                     if jInStrList gb df_columns then _validate_aggregation agg
                     else Except.error .configError
             | none => Except.ok ())
            (if jHasKey fields "group_by" && !(jHasKey fields "aggregate") then
               Except.error .configError
             else Except.ok ())
            (if (fields.map Prod.fst).any (fun k => !(validConfigKeys.contains k)) then
               Except.error .configError
             else Except.ok ())
  | j =>
      if jFalsy j then Except.error .configError
      else
        match j with
        | .arr _ => Except.error .configError
        | .str _ => Except.error .configError
        | _ => Except.error .typeError

/-- `validate_plot_config(config, df_columns)`: the simple form (a `select`
key) rejects a bare numeric literal `select` and then delegates to
`validate_config`; the two-sided form validates `x-values` and `y-values`
independently and rejects bare numeric literal selects on either side; any
other shape is rejected.  NOTE (load-bearing for the proofs below): in the
two-sided form nothing validates a *top-level* `filter` key, although
`evaluate_plot_config` will apply one. -/
def validate_plot_config (config : J) (df_columns : List String) :
    Except PyErr Unit :=
  match config with
  | .obj fields =>
      match jLookup fields "select" with
      | some sel =>
          if jIsNumber sel then Except.error .configError
          else validate_config config df_columns
      | none =>
          match jLookup fields "x-values", jLookup fields "y-values" with
          | some xc, some yc => do
              validate_config xc df_columns
              validate_config yc df_columns
              if jIsNumberOpt (jGet xc "select") then Except.error .configError
              else if jIsNumberOpt (jGet yc "select") then Except.error .configError
              else Except.ok ()
          | _, _ => Except.error .configError
  | j =>
      match j with
      | .arr _ => Except.error .configError
      | .str _ => Except.error .configError
      | _ => Except.error .typeError

/-! ## Orchestrator (`parser.py`) -/

/-- The `if "filter" in config: df = apply_filters(df, config["filter"])`
block both orchestrator methods start with.  A non-list filter value (the
code would fail iterating it) and a non-dict config (unreachable after
validation) are `.typeError`. -/
def applyConfigFilter (df : DataFrame) (config : J) : Except PyErr DataFrame :=
  match config with
  | .obj fields =>
      match jLookup fields "filter" with
      | some (.arr fs) => apply_filters df fs
      | some _ => Except.error .typeError
      | none => Except.ok df
  | _ => Except.error .typeError

/-- `ExpressionParser(dataframe)`: holds its own copy of the frame
(value semantics make the copy implicit). -/
structure ExpressionParser where
  df : DataFrame

/-- `ExpressionParser.evaluate(config)`: validate → filter → parse →
evaluate → aggregate.  The non-dict fallbacks after validation are
unreachable (`validate_config` fails on every non-dict). -/
def ExpressionParser.evaluate (p : ExpressionParser) (config : J) :
    Except PyErr Value := do
  validate_config config (colNames p.df)
  let df ← applyConfigFilter p.df config
  let sel ← match config with
    | .obj fields => dictGet fields "select"
    | _ => Except.error .typeError
  let astNode ← parse_expression sel
  let result ← evaluate_ast df astNode
  match config with
  | .obj fields =>
      match jLookup fields "aggregate" with
      | some agg => do
          let gb ← dictGet fields "group_by"
          let s ← apply_aggregation df result gb agg
          Except.ok (.series s)
      | none => Except.ok result
  | _ => Except.error .typeError

/-- `ExpressionParser.evaluate_plot_config(config)`: validate as a plot
config, apply any top-level filter, construct a fresh parser on the filtered
frame, then either the simple form (`y` from `evaluate`, `x` the synthetic
`0..len(y)-1` index — `len()` of a scalar result raises `TypeError` — labels
`"index"` and `name`-or-`"value"`) or the two-sided form (each side
independently evaluated and labelled). -/
def ExpressionParser.evaluate_plot_config (p : ExpressionParser) (config : J) :
    Except PyErr (Value × Value × J × J) := do
  validate_plot_config config (colNames p.df)
  let df ← applyConfigFilter p.df config
  let filteredParser : ExpressionParser := ⟨df⟩
  match config with
  | .obj fields =>
      if jHasKey fields "select" then do
        let y ← filteredParser.evaluate config
        let n ← match y with
          | .scalar _ => Except.error .typeError
          | .series s => Except.ok s.data.length
        let x : Value :=
          .series ⟨.int64, (List.range n).map (fun i => (Cell.num i, Cell.num i)),
            some "index"⟩
        Except.ok (x, y, .str "index", (jLookup fields "name").getD (.str "value"))
      else if jHasKey fields "x-values" && jHasKey fields "y-values" then do
        let xc ← dictGet fields "x-values"
        let yc ← dictGet fields "y-values"
        let x ← filteredParser.evaluate xc
        let y ← filteredParser.evaluate yc
        Except.ok (x, y, (jGet xc "name").getD (.str "x-values"),
                   (jGet yc "name").getD (.str "y-values"))
      else Except.error .configError
  | _ => Except.error .typeError

/-! ## Concrete frames used by counterexamples and witnesses -/

/-- A small frame with a numeric and a float column. -/
def dfSmall : DataFrame :=
  ⟨[("param2", .int64), ("param3", .float64)],
   [(.num 0, [.num 1, .num (1/10)]), (.num 1, [.num 2, .num (2/10)])]⟩

/-! ## C7 -/

/-- C7 counterexample: the claim says `parse_expression` fails with
`InvalidExpressionFormat` on every boolean input, but `isinstance(True,
(int, float))` holds in Python (bool is an int subclass), so `True` parses
as a literal node and no error is raised. -/
theorem parse_expression_bool_is_literal_counterexample :
    parse_expression (.bool true) = Except.ok (.literal (.bool true)) ∧
    parse_expression (.bool true) ≠ Except.error .invalidExpressionFormat := by
  constructor
  · simp [parse_expression]
  · simp [parse_expression]

/-- C7 amended: booleans parse as numeric literals (bool being an `int`
subtype takes the number branch); null, lists, and objects lacking the key
`op` fail with `InvalidExpressionFormat`. -/
theorem parse_expression_rejects_malformed_shapes :
    (∀ b, parse_expression (.bool b) = Except.ok (.literal (.bool b))) ∧
    parse_expression .null = Except.error .invalidExpressionFormat ∧
    (∀ xs, parse_expression (.arr xs) = Except.error .invalidExpressionFormat) ∧
    (∀ fields, jLookup fields "op" = none →
      parse_expression (.obj fields) = Except.error .invalidExpressionFormat) := by
  refine ⟨fun b => by simp [parse_expression], by simp [parse_expression],
    fun xs => by simp [parse_expression], fun fields h => ?_⟩
  rw [parse_expression]
  simp [h]

/-- C7 witness: the amended statement applied to a concrete op-less object
(and a concrete boolean). -/
theorem parse_expression_rejects_malformed_shapes_witness :
    parse_expression (.obj [("left", .num 1)]) =
      Except.error .invalidExpressionFormat :=
  parse_expression_rejects_malformed_shapes.2.2.2 [("left", .num 1)] rfl

/-! ## C6 -/

/-- The spec's concrete `*` scenario. -/
def starConfig : J :=
  .obj [("select", .obj [("op", .str "*"), ("left", .str "param2"),
                         ("right", .str "param3")])]

/-- C6 counterexample: on a table containing `param2` and `param3`, the
claim says `ExpressionParser.evaluate` raises `UnsupportedOperator` for the
`*` config; in the code, `validate_config` runs first and rejects the
operator with `ConfigValidationError`, so `UnsupportedOperator` is never
raised. -/
theorem star_config_raises_configError_counterexample :
    ExpressionParser.evaluate ⟨dfSmall⟩ starConfig = Except.error .configError ∧
    ExpressionParser.evaluate ⟨dfSmall⟩ starConfig ≠
      Except.error .unsupportedOperator := by
  constructor <;>
    simp [ExpressionParser.evaluate, applyConfigFilter, starConfig, validate_config,
      _validate_select_expression, jLookup, pyStrKeyGet, SUPPORTED_BINARY_OPS,
      bind, Except.bind]

/-- C6 amended: for every table, `ExpressionParser.evaluate` of the `*`
config fails with `ConfigValidationError` (validation front-runs parsing);
the `UnsupportedOperator` error belongs to `parse_expression`, which does
raise it when handed the same expression directly. -/
theorem star_config_configError_from_validation (df : DataFrame) :
    ExpressionParser.evaluate ⟨df⟩ starConfig = Except.error .configError ∧
    parse_expression (.obj [("op", .str "*"), ("left", .str "param2"),
                            ("right", .str "param3")]) =
      Except.error .unsupportedOperator := by
  constructor
  · simp [ExpressionParser.evaluate, applyConfigFilter, starConfig, validate_config,
      _validate_select_expression, jLookup, pyStrKeyGet, SUPPORTED_BINARY_OPS,
      bind, Except.bind]
  · simp [parse_expression, jLookup, pyStrKeyGet, SUPPORTED_BINARY_OPS]

/-! ## C10 -/

/-- A composite select expression built entirely from numeric literals. -/
def literalSumPlotConfig : J :=
  .obj [("select", .obj [("op", .str "+"), ("left", .num 1), ("right", .num 2)])]

/-- C10: `validate_plot_config`'s bare-literal rejection only fires when the
select value is itself a number, so the all-literal composite `1 + 2` passes
plot validation; the simple-form `evaluate_plot_config` then evaluates it to
the scalar `3` and fails with `TypeError` when `len(y)` is taken to
synthesize the x index. -/
theorem literal_composite_passes_plot_validation_then_len_fails (df : DataFrame) :
    validate_plot_config literalSumPlotConfig (colNames df) = Except.ok () ∧
    ExpressionParser.evaluate_plot_config ⟨df⟩ literalSumPlotConfig =
      Except.error .typeError := by
  constructor
  · simp [validate_plot_config, literalSumPlotConfig, validate_config,
      _validate_select_expression, jLookup, pyStrKeyGet, SUPPORTED_BINARY_OPS,
      jIsNumber, jHasKey, validConfigKeys, bind, Except.bind]
  · simp [ExpressionParser.evaluate_plot_config, ExpressionParser.evaluate,
      applyConfigFilter, validate_plot_config, literalSumPlotConfig, validate_config,
      _validate_select_expression, jLookup, pyStrKeyGet, SUPPORTED_BINARY_OPS,
      jIsNumber, jHasKey, validConfigKeys, dictGet, parse_expression,
      evaluate_ast, BINARY_OPERATORS, liftBinOp, cellAdd, Cell.toNum?,
      bind, Except.bind]

/-! ## C3 -/

/-- C3: for every table and every config `{select: c}` naming an existing
column, with no filter, group_by, or aggregate, `evaluate` returns exactly
the table's column `c` as `df[c]` yields it — same values, same row order,
and the original row labels. -/
theorem select_column_returns_column_unchanged (df : DataFrame) (c : String)
    (hc : c ∈ colNames df) :
    ∃ s : Series,
      ExpressionParser.evaluate ⟨df⟩ (.obj [("select", .str c)]) =
        Except.ok (.series s) ∧
      getCol df c = Except.ok s ∧
      s.data.map Prod.fst = rowLabels df := by
  have hcont : (colNames df).contains c = true := by simpa using hc
  have hsome : (df.cols.findIdx? (fun p => p.1 == c)).isSome := by
    rw [List.findIdx?_isSome, List.any_eq_true]
    obtain ⟨p, hp, hpe⟩ := List.mem_map.mp hc
    exact ⟨p, hp, by simp [hpe]⟩
  obtain ⟨i, hi⟩ := Option.isSome_iff_exists.mp hsome
  refine ⟨⟨(df.cols[i]?.map Prod.snd).getD .object,
           df.rows.map (fun r => (r.1, r.2[i]?.getD (.num 0))), some c⟩, ?_, ?_, ?_⟩
  · simp [ExpressionParser.evaluate, applyConfigFilter, validate_config,
      _validate_select_expression, jLookup, jHasKey, validConfigKeys, dictGet,
      parse_expression, evaluate_ast, getCol, hcont, hc, hi, bind, Except.bind]
  · simp [getCol, hi]
  · simp [rowLabels]

/-- C3 witness: the theorem applied to the concrete frame `dfSmall` and its
column `param2`. -/
theorem select_column_returns_column_unchanged_witness :
    ∃ s : Series,
      ExpressionParser.evaluate ⟨dfSmall⟩ (.obj [("select", .str "param2")]) =
        Except.ok (.series s) ∧
      getCol dfSmall "param2" = Except.ok s ∧
      s.data.map Prod.fst = rowLabels dfSmall :=
  select_column_returns_column_unchanged dfSmall "param2"
    (by simp [colNames, dfSmall])

/-! ## C4 -/

/-- Whether a comparison succeeded with `True`. -/
def cmpOkTrue (e : Except PyErr Bool) : Bool :=
  match e with
  | .ok b => b
  | .error _ => false

/-- The predicate a single filter condition `{column, op, value}` denotes on
one row, read against a fixed schema: the row's cell in the condition's
column compares true under the condition's operator and value.  A malformed
condition, an unknown column, or a failing comparison satisfies no row. -/
def rowSatisfies (cols : List (String × Dtype)) (f : J) (row : Cell × List Cell) :
    Bool :=
  match f with
  | .obj kvs =>
      match jLookup kvs "column", jLookup kvs "op", jLookup kvs "value" with
      | some (.str c), some (.str op), some v =>
          match cols.findIdx? (fun p => p.1 == c) with
          | some i => cmpOkTrue (cellCmp op (row.2[i]?.getD (.num 0)) v)
          | none => false
      | _, _, _ => false
  | _ => false

theorem selectRows_cons (r : Cell × List Cell) (rows : List (Cell × List Cell))
    (b : Bool) (mask : List Bool) :
    selectRows (r :: rows) (b :: mask) =
      if b then r :: selectRows rows mask else selectRows rows mask := by
  cases b <;> simp [selectRows]

theorem selectRows_buildMask (op : String) (v : J) (i : ℕ)
    (rows : List (Cell × List Cell)) (mask : List Bool)
    (h : buildMask op v (rows.map (fun r => (r.1, r.2[i]?.getD (.num 0)))) =
      Except.ok mask) :
    selectRows rows mask =
      rows.filter (fun r => cmpOkTrue (cellCmp op (r.2[i]?.getD (.num 0)) v)) := by
  induction rows generalizing mask with
  | nil =>
      simp [buildMask] at h
      subst h
      simp [selectRows]
  | cons r rest ih =>
      rw [List.map_cons, buildMask] at h
      cases hb : cellCmp op (r.2[i]?.getD (.num 0)) v with
      | error e => simp [hb, bind, Except.bind] at h
      | ok b =>
          simp only [hb, bind, Except.bind] at h
          cases hbs : buildMask op v (rest.map (fun r => (r.1, r.2[i]?.getD (.num 0)))) with
          | error e => simp [hbs] at h
          | ok bs =>
              simp only [hbs] at h
              cases h
              rw [selectRows_cons, List.filter_cons, ih bs hbs]
              simp [cmpOkTrue, hb]

/-- The row-independent facts a successful `filterStep` certifies about the
condition itself: a dict with the three keys, a registered operator, and a
resolvable column. -/
def condStructOk (cols : List (String × Dtype)) (f : J) : Prop :=
  ∃ kvs c op v i, f = J.obj kvs ∧
    jLookup kvs "column" = some (.str c) ∧
    jLookup kvs "op" = some (.str op) ∧ op ∈ FILTER_OPERATORS ∧
    jLookup kvs "value" = some v ∧
    cols.findIdx? (fun p => p.1 == c) = some i

theorem filterStep_ok (df d : DataFrame) (f : J)
    (h : filterStep df f = Except.ok d) :
    condStructOk df.cols f ∧
    d.cols = df.cols ∧ d.rows = df.rows.filter (rowSatisfies df.cols f) := by
  match f with
  | .num _ | .str _ | .bool _ | .null | .arr _ => simp [filterStep] at h
  | .obj kvs =>
    rw [filterStep] at h
    cases hcol : jLookup kvs "column" with
    | none => simp [dictGet, hcol, bind, Except.bind] at h
    | some colJ =>
    cases hop : jLookup kvs "op" with
    | none => simp [dictGet, hcol, hop, bind, Except.bind] at h
    | some opJ =>
    cases hval : jLookup kvs "value" with
    | none => simp [dictGet, hcol, hop, hval, bind, Except.bind] at h
    | some valJ =>
    simp only [dictGet, hcol, hop, hval, bind, Except.bind] at h
    match opJ with
    | .arr _ | .obj _ => simp [pyStrKeyGet] at h
    | .num _ | .bool _ | .null => simp [pyStrKeyGet] at h
    | .str op =>
    simp only [pyStrKeyGet] at h
    by_cases hsup : op ∈ FILTER_OPERATORS
    · have hsup2 : FILTER_OPERATORS.contains op = true := by simpa using hsup
      rw [if_pos hsup2] at h
      match colJ with
      | .num _ | .bool _ | .null | .arr _ | .obj _ => simp [getColJ] at h
      | .str c =>
      simp only [getColJ, getCol] at h
      cases hidx : df.cols.findIdx? (fun p => p.1 == c) with
      | none => simp [hidx] at h
      | some i =>
      simp only [hidx] at h
      cases hmask : buildMask op valJ
          (df.rows.map (fun r => (r.1, r.2[i]?.getD (.num 0)))) with
      | error e => simp [hmask] at h
      | ok mask =>
      simp only [hmask] at h
      cases h
      refine ⟨⟨kvs, c, op, valJ, i, rfl, hcol, hop, hsup, hval, hidx⟩, rfl, ?_⟩
      have := selectRows_buildMask op valJ i df.rows mask hmask
      rw [this]
      refine List.filter_congr fun r _ => ?_
      simp [rowSatisfies, hcol, hop, hval, hidx]
    · have hsup2 : ¬FILTER_OPERATORS.contains op = true := by simpa using hsup
      rw [if_neg hsup2] at h
      simp at h

/-- Chained filtering narrows with the conjunction of the per-condition
predicates over the original frame, preserving the column schema. -/
theorem apply_filters_ok (fs : List J) (df d : DataFrame)
    (h : apply_filters df fs = Except.ok d) :
    d.cols = df.cols ∧
    d.rows = df.rows.filter (fun r => fs.all (fun f => rowSatisfies df.cols f r)) := by
  induction fs generalizing df with
  | nil =>
      simp [apply_filters] at h
      subst h
      simp
  | cons f rest ih =>
      rw [apply_filters] at h
      cases h1 : filterStep df f with
      | error e => simp [h1, bind, Except.bind] at h
      | ok d1 =>
          simp only [h1, bind, Except.bind] at h
          obtain ⟨_, hc1, hr1⟩ := filterStep_ok df d1 f h1
          obtain ⟨hc2, hr2⟩ := ih d1 h
          refine ⟨hc2.trans hc1, ?_⟩
          rw [hr2, hc1, hr1, List.filter_filter]
          refine List.filter_congr fun r _ => ?_
          rw [List.all_cons, Bool.and_comm]

/-- C4: for every table and ordered condition list, when sequential
filtering succeeds it yields exactly the rows of the original table
satisfying the boolean AND of all the conditions' predicates, each surviving
row keeping its original index label (rows are (label, cells) pairs, so the
filtered rows are literally rows of the original frame). -/
theorem apply_filters_is_conjunction (df d : DataFrame) (fs : List J)
    (h : apply_filters df fs = Except.ok d) :
    d.cols = df.cols ∧
    d.rows = df.rows.filter (fun r => fs.all (fun f => rowSatisfies df.cols f r)) ∧
    ∀ r ∈ d.rows, r ∈ df.rows := by
  obtain ⟨hc, hr⟩ := apply_filters_ok fs df d h
  exact ⟨hc, hr, fun r hm => by
    rw [hr] at hm
    exact List.mem_of_mem_filter hm⟩

/-- The rows of `dfSmall` surviving `param2 > 1`. -/
def dfSmallFiltered : DataFrame :=
  ⟨dfSmall.cols, [(.num 1, [.num 2, .num (2/10)])]⟩

/-- C4 witness: the theorem applied to a concrete frame and condition list
(`param2 > 1` keeps exactly the second row of `dfSmall`). -/
theorem apply_filters_is_conjunction_witness :
    dfSmallFiltered.cols = dfSmall.cols ∧
    dfSmallFiltered.rows =
      dfSmall.rows.filter (fun r =>
        [J.obj [("column", .str "param2"), ("op", .str ">"), ("value", .num 1)]].all
          (fun f => rowSatisfies dfSmall.cols f r)) ∧
    ∀ r ∈ dfSmallFiltered.rows, r ∈ dfSmall.rows :=
  apply_filters_is_conjunction dfSmall dfSmallFiltered
    [J.obj [("column", .str "param2"), ("op", .str ">"), ("value", .num 1)]]
    (by rfl)

/-! ## C9 -/

theorem cmpOkTrue_iff (e : Except PyErr Bool) :
    cmpOkTrue e = true ↔ e = Except.ok true := by
  cases e with
  | ok b => cases b <;> simp [cmpOkTrue]
  | error _ => simp [cmpOkTrue]

theorem buildMask_all_true (op : String) (v : J) (ps : List (Cell × Cell))
    (h : ∀ p ∈ ps, cellCmp op p.2 v = Except.ok true) :
    buildMask op v ps = Except.ok (ps.map fun _ => true) := by
  induction ps with
  | nil => rfl
  | cons p rest ih =>
      rw [buildMask, h p (List.mem_cons_self p rest),
        ih fun q hq => h q (List.mem_cons_of_mem p hq)]
      rfl

theorem selectRows_self (rows : List (Cell × List Cell)) :
    selectRows rows (rows.map fun _ => true) = rows := by
  induction rows with
  | nil => rfl
  | cons r rest ih => rw [List.map_cons, selectRows_cons, ih]; simp

/-- A condition that is structurally fine and already satisfied by every row
filters nothing: `filterStep` returns the frame unchanged. -/
theorem filterStep_noop (d : DataFrame) (f : J)
    (hs : condStructOk d.cols f)
    (hr : ∀ r ∈ d.rows, rowSatisfies d.cols f r = true) :
    filterStep d f = Except.ok d := by
  obtain ⟨kvs, c, op, v, i, rfl, hcol, hop, hmem, hval, hidx⟩ := hs
  have hmask : buildMask op v (d.rows.map (fun r => (r.1, r.2[i]?.getD (.num 0)))) =
      Except.ok ((d.rows.map (fun r => (r.1, r.2[i]?.getD (.num 0)))).map fun _ => true) := by
    apply buildMask_all_true
    intro p hp
    obtain ⟨r, hrm, rfl⟩ := List.mem_map.mp hp
    have hsat := hr r hrm
    simp only [rowSatisfies, hcol, hop, hval, hidx] at hsat
    exact (cmpOkTrue_iff _).mp hsat
  have hcont : FILTER_OPERATORS.contains op = true := by simpa using hmem
  rw [filterStep]
  simp only [dictGet, hcol, hop, hval, bind, Except.bind, pyStrKeyGet,
    hcont, if_pos, getColJ, getCol, hidx, hmask, List.map_map]
  show Except.ok ⟨d.cols, selectRows d.rows (d.rows.map fun _ => true)⟩ = Except.ok d
  rw [selectRows_self]

theorem apply_filters_struct (fs : List J) (df d : DataFrame)
    (h : apply_filters df fs = Except.ok d) :
    ∀ f ∈ fs, condStructOk df.cols f := by
  induction fs generalizing df with
  | nil => simp
  | cons f rest ih =>
      rw [apply_filters] at h
      cases h1 : filterStep df f with
      | error e => simp [h1, bind, Except.bind] at h
      | ok d1 =>
          simp only [h1, bind, Except.bind] at h
          obtain ⟨hstruct, hcols, _⟩ := filterStep_ok df d1 f h1
          intro g hg
          rcases List.mem_cons.mp hg with rfl | hg2
          · exact hstruct
          · have := ih d1 h g hg2
            rwa [hcols] at this

theorem apply_filters_noop (fs : List J) (d : DataFrame)
    (hstruct : ∀ f ∈ fs, condStructOk d.cols f)
    (hsat : ∀ r ∈ d.rows, ∀ f ∈ fs, rowSatisfies d.cols f r = true) :
    apply_filters d fs = Except.ok d := by
  induction fs with
  | nil => rfl
  | cons f rest ih =>
      rw [apply_filters, filterStep_noop d f (hstruct f (List.mem_cons_self f rest))
        (fun r hr => hsat r hr f (List.mem_cons_self f rest))]
      simpa [bind, Except.bind] using
        ih (fun g hg => hstruct g (List.mem_cons_of_mem f hg))
          (fun r hr g hg => hsat r hr g (List.mem_cons_of_mem f hg))

/-- Re-filtering an already filtered frame with the same conditions leaves it
unchanged. -/
theorem apply_filters_idempotent (df d : DataFrame) (fs : List J)
    (h : apply_filters df fs = Except.ok d) :
    apply_filters d fs = Except.ok d := by
  obtain ⟨hc, hr⟩ := apply_filters_ok fs df d h
  have hstruct := apply_filters_struct fs df d h
  apply apply_filters_noop
  · intro f hf
    rw [hc]
    exact hstruct f hf
  · intro r hrm f hf
    rw [hc]
    rw [hr] at hrm
    have := (List.mem_filter.mp hrm).2
    rw [List.all_eq_true] at this
    exact this f hf

theorem applyConfigFilter_cols (df d : DataFrame) (config : J)
    (h : applyConfigFilter df config = Except.ok d) : d.cols = df.cols := by
  match config with
  | .num _ | .str _ | .bool _ | .null | .arr _ => simp [applyConfigFilter] at h
  | .obj fields =>
      rw [applyConfigFilter] at h
      cases hf : jLookup fields "filter" with
      | none => rw [hf] at h; cases h; rfl
      | some fl =>
          rw [hf] at h
          match fl with
          | .num _ | .str _ | .bool _ | .null | .obj _ => simp at h
          | .arr fs => exact (apply_filters_ok fs df d h).1

theorem applyConfigFilter_idem (df d : DataFrame) (config : J)
    (h : applyConfigFilter df config = Except.ok d) :
    applyConfigFilter d config = Except.ok d := by
  match config with
  | .num _ | .str _ | .bool _ | .null | .arr _ => simp [applyConfigFilter] at h
  | .obj fields =>
      rw [applyConfigFilter] at h
      rw [applyConfigFilter]
      cases hf : jLookup fields "filter" with
      | none => rw [hf] at h
      | some fl =>
          rw [hf] at h
          match fl with
          | .num _ | .str _ | .bool _ | .null | .obj _ => simp at h
          | .arr fs => exact apply_filters_idempotent df d fs h

/-- `evaluate` only consults its parser's frame through the column-name list
handed to validation and through the filter stage: two parsers whose frames
validate identically and filter to the same frame evaluate identically. -/
theorem evaluate_frame_irrelevant (df d : DataFrame) (config : J)
    (hcols : colNames d = colNames df)
    (hfd : applyConfigFilter d config = Except.ok d)
    (hff : applyConfigFilter df config = Except.ok d) :
    ExpressionParser.evaluate ⟨d⟩ config = ExpressionParser.evaluate ⟨df⟩ config := by
  simp only [ExpressionParser.evaluate]
  rw [hcols, hfd, hff]

/-- The simple plot form filters the frame once at the top and once more
inside the nested `evaluate`; by idempotence the second pass is harmless, so
the plotted `y` is exactly what a single `evaluate` returns, and `x` is the
synthetic index over its length. -/
theorem plot_simple_refilter (df : DataFrame) (fields : List (String × J)) (s : Series)
    (hsel : jHasKey fields "select" = true)
    (hv : validate_plot_config (.obj fields) (colNames df) = Except.ok ())
    (he : ExpressionParser.evaluate ⟨df⟩ (.obj fields) = Except.ok (.series s)) :
    ExpressionParser.evaluate_plot_config ⟨df⟩ (.obj fields) =
      Except.ok (.series ⟨.int64,
          (List.range s.data.length).map (fun i => (Cell.num i, Cell.num i)),
          some "index"⟩,
        .series s, .str "index", (jLookup fields "name").getD (.str "value")) := by
  have he2 := he
  simp only [ExpressionParser.evaluate] at he2
  cases hval : validate_config (J.obj fields) (colNames df) with
  | error e => rw [hval] at he2; simp [bind, Except.bind] at he2
  | ok u =>
      cases u
      rw [hval] at he2
      simp only [bind, Except.bind] at he2
      cases hflt : applyConfigFilter df (J.obj fields) with
      | error e => rw [hflt] at he2; simp at he2
      | ok d =>
          rw [hflt] at he2
          have hcols : colNames d = colNames df := by
            unfold colNames
            rw [applyConfigFilter_cols df d _ hflt]
          have hy : ExpressionParser.evaluate ⟨d⟩ (J.obj fields) =
              Except.ok (.series s) := by
            rw [evaluate_frame_irrelevant df d (J.obj fields) hcols
              (applyConfigFilter_idem df d _ hflt) hflt]
            exact he
          simp only [ExpressionParser.evaluate_plot_config, hv, hflt, hsel,
            if_pos, bind, Except.bind, hy]

/-- C9: filtering is idempotent — re-applying a condition list to its own
output returns that output unchanged — and consequently the simple form of
`evaluate_plot_config`, which filters once itself and once more inside the
nested `evaluate`, plots exactly the rows a single filtered `evaluate`
yields. -/
theorem filtering_idempotent_and_plot_refilter_harmless :
    (∀ (df d : DataFrame) (fs : List J), apply_filters df fs = Except.ok d →
      apply_filters d fs = Except.ok d) ∧
    (∀ (df : DataFrame) (fields : List (String × J)) (s : Series),
      jHasKey fields "select" = true →
      validate_plot_config (.obj fields) (colNames df) = Except.ok () →
      ExpressionParser.evaluate ⟨df⟩ (.obj fields) = Except.ok (.series s) →
      ExpressionParser.evaluate_plot_config ⟨df⟩ (.obj fields) =
        Except.ok (.series ⟨.int64,
            (List.range s.data.length).map (fun i => (Cell.num i, Cell.num i)),
            some "index"⟩,
          .series s, .str "index", (jLookup fields "name").getD (.str "value"))) :=
  ⟨apply_filters_idempotent, plot_simple_refilter⟩

/-- C9 witness: both statements at concrete inputs — re-filtering the
already-filtered `dfSmallFiltered` is a no-op, and plotting
`{select: "param2"}` over `dfSmall` returns the single-pass evaluation with
its synthetic index. -/
theorem filtering_idempotent_and_plot_refilter_harmless_witness :
    apply_filters dfSmallFiltered
      [J.obj [("column", .str "param2"), ("op", .str ">"), ("value", .num 1)]] =
      Except.ok dfSmallFiltered ∧
    ExpressionParser.evaluate_plot_config ⟨dfSmall⟩ (.obj [("select", .str "param2")]) =
      Except.ok (.series ⟨.int64, [(Cell.num 0, Cell.num 0), (Cell.num 1, Cell.num 1)],
        some "index"⟩,
        .series ⟨.int64, [(.num 0, .num 1), (.num 1, .num 2)], some "param2"⟩,
        .str "index", .str "value") := by
  constructor
  · exact filtering_idempotent_and_plot_refilter_harmless.1 dfSmall dfSmallFiltered
      [J.obj [("column", .str "param2"), ("op", .str ">"), ("value", .num 1)]] (by rfl)
  · have h2 := filtering_idempotent_and_plot_refilter_harmless.2 dfSmall
      [("select", J.str "param2")]
      ⟨.int64, [(.num 0, .num 1), (.num 1, .num 2)], some "param2"⟩
      (by rfl)
      (by simp [validate_plot_config, validate_config, _validate_select_expression,
        jLookup, jIsNumber, colNames, dfSmall, jHasKey, validConfigKeys,
        bind, Except.bind])
      (by simp [ExpressionParser.evaluate, applyConfigFilter, validate_config,
        _validate_select_expression, jLookup, jHasKey, validConfigKeys, dictGet,
        parse_expression, evaluate_ast, getCol, colNames, dfSmall,
        bind, Except.bind])
    simpa [jLookup] using h2

/-! ## C8 -/

/-- The stored dtype of a named column (`object` when absent; only used with
existing columns). -/
def colDtype (df : DataFrame) (c : String) : Dtype :=
  match df.cols.findIdx? (fun p => p.1 == c) with
  | some i => (df.cols[i]?.map Prod.snd).getD .object
  | none => .object

theorem colNames_findIdx (df : DataFrame) (c : String) (hc : c ∈ colNames df) :
    ∃ i, df.cols.findIdx? (fun p => p.1 == c) = some i := by
  have hsome : (df.cols.findIdx? (fun p => p.1 == c)).isSome := by
    rw [List.findIdx?_isSome, List.any_eq_true]
    obtain ⟨p, hp, hpe⟩ := List.mem_map.mp hc
    exact ⟨p, hp, by simp [hpe]⟩
  exact Option.isSome_iff_exists.mp hsome

/-- C8: for a valid config whose filters eliminate every row, evaluating a
`select` of an existing column succeeds and returns an empty column (length
0) carrying the source column's dtype. -/
theorem filter_to_empty_keeps_dtype (df d : DataFrame) (c : String) (fs : List J)
    (hv : validate_config (.obj [("select", .str c), ("filter", .arr fs)])
      (colNames df) = Except.ok ())
    (hf : apply_filters df fs = Except.ok d)
    (hempty : d.rows = []) :
    ExpressionParser.evaluate ⟨df⟩
        (.obj [("select", .str c), ("filter", .arr fs)]) =
      Except.ok (.series ⟨colDtype df c, [], some c⟩) := by
  have hcont : (colNames df).contains c = true := by
    by_contra hnc
    rw [validate_config] at hv
    simp [jLookup, bind, Except.bind] at hv
    rw [_validate_select_expression.eq_def] at hv
    simp only [] at hv
    rw [if_neg hnc] at hv
    simp at hv
  have hc : c ∈ colNames df := by simpa using hcont
  obtain ⟨i, hi⟩ := colNames_findIdx df c hc
  have hdcols : d.cols = df.cols := (apply_filters_ok fs df d hf).1
  have hgc : getCol d c =
      Except.ok ⟨(df.cols[i]?.map Prod.snd).getD .object, [], some c⟩ := by
    rw [getCol, hdcols, hi, hempty]
    simp
  have hacf : applyConfigFilter df (J.obj [("select", J.str c), ("filter", J.arr fs)]) =
      Except.ok d := by
    simp [applyConfigFilter, jLookup, hf]
  simp [ExpressionParser.evaluate, hv, hacf, dictGet, jLookup, parse_expression,
    evaluate_ast, hgc, colDtype, hi, bind, Except.bind]

/-- C8 witness: the theorem applied to `dfSmall` with the condition
`param2 > 5`, which removes every row. -/
theorem filter_to_empty_keeps_dtype_witness :
    ExpressionParser.evaluate ⟨dfSmall⟩
        (.obj [("select", .str "param2"),
               ("filter", .arr [.obj [("column", .str "param2"), ("op", .str ">"),
                                      ("value", .num 5)]])]) =
      Except.ok (.series ⟨colDtype dfSmall "param2", [], some "param2"⟩) :=
  filter_to_empty_keeps_dtype dfSmall ⟨dfSmall.cols, []⟩ "param2"
    [.obj [("column", .str "param2"), ("op", .str ">"), ("value", .num 5)]]
    (by simp [validate_config, _validate_select_expression, _validate_filters,
      _validate_filter_items, _validate_filter_item, jLookup, jHasKey, jIsScalar,
      jInStrList, pyStrKeyGet, dictGet, FILTER_OPERATORS, validConfigKeys, colNames,
      dfSmall, bind, Except.bind])
    (by rfl) (by rfl)

/-! ## C2 -/

/-- A scalar (bare literal) select together with grouping and aggregation. -/
def scalarAggConfig : J :=
  .obj [("select", .num 42), ("group_by", .str "param1"),
        ("aggregate", .obj [("func", .str "mean")])]

/-- A frame with a group column. -/
def dfGroup : DataFrame :=
  ⟨[("param1", .int64), ("param2", .int64)],
   [(.num 0, [.num 0, .num 1]), (.num 1, [.num 0, .num 2]),
    (.num 2, [.num 1, .num 3])]⟩

/-- C2, evaluated on the code at the failing input: `validate_config`
ACCEPTS the scalar-select-plus-group_by-plus-aggregate config (it has no
scalar-with-aggregation check; only `validate_plot_config` rejects bare
literals), so the pipeline runs on and `apply_aggregation` IS invoked with
the scalar `42`, where `pd.concat` of a scalar raises `TypeError` — not the
`ConfigValidationError` the claim promises. -/
theorem scalar_select_with_aggregate_passes_validation :
    validate_config scalarAggConfig (colNames dfGroup) = Except.ok () ∧
    apply_aggregation dfGroup (.scalar (.num 42)) (.str "param1")
      (.obj [("func", .str "mean")]) = Except.error .typeError ∧
    ExpressionParser.evaluate ⟨dfGroup⟩ scalarAggConfig =
      Except.error .typeError := by
  refine ⟨?_, ?_, ?_⟩
  · simp [validate_config, scalarAggConfig, _validate_select_expression,
      _validate_aggregation, jLookup, jHasKey, jInStrList, pyStrKeyGet,
      AGGREGATION_FUNCTIONS, validConfigKeys, colNames, dfGroup,
      bind, Except.bind]
  · simp [apply_aggregation, getColJ, getCol, dfGroup, bind, Except.bind]
  · simp [ExpressionParser.evaluate, scalarAggConfig, applyConfigFilter,
      validate_config, _validate_select_expression, _validate_aggregation,
      jLookup, jHasKey, jInStrList, pyStrKeyGet, AGGREGATION_FUNCTIONS,
      validConfigKeys, colNames, dfGroup, dictGet, parse_expression,
      evaluate_ast, apply_aggregation, getColJ, getCol, bind, Except.bind]

/-! ## C5 -/

theorem cellLeB_total (a b : Cell) : cellLeB a b = true ∨ cellLeB b a = true := by
  cases a <;> cases b <;>
    simp [cellLeB, Cell.toNum?] <;>
    exact le_total _ _

theorem cellLeB_trans (a b c : Cell) (h1 : cellLeB a b = true)
    (h2 : cellLeB b c = true) : cellLeB a c = true := by
  cases a <;> cases b <;> cases c <;>
    simp [cellLeB, Cell.toNum?] at h1 h2 ⊢ <;>
    exact le_trans h1 h2

instance : IsTotal Cell cellLeP :=
  ⟨fun a b => cellLeB_total a b⟩

instance : IsTrans Cell cellLeP :=
  ⟨fun a b c h1 h2 => cellLeB_trans a b c h1 h2⟩

/-- The cells of column `g`, in row order (empty for a missing column; only
used with existing columns). -/
def columnCells (df : DataFrame) (g : String) : List Cell :=
  match df.cols.findIdx? (fun p => p.1 == g) with
  | some i => df.rows.map (fun r => r.2[i]?.getD (.num 0))
  | none => []

/-- The numeric values of the computed column at the rows whose `g`-cell is
`k` (the group of `k`). -/
def groupNums (df : DataFrame) (s : Series) (g : String) (k : Cell) : List ℚ :=
  ((((columnCells df g).zip (s.data.map Prod.snd)).filter
      (fun p => decide (p.1 = k))).map Prod.snd).map
    (fun v => (Cell.toNum? v).getD 0)

theorem allNums?_of_isSome (vs : List Cell)
    (h : ∀ v ∈ vs, (Cell.toNum? v).isSome) :
    allNums? vs = some (vs.map (fun v => (Cell.toNum? v).getD 0)) := by
  induction vs with
  | nil => rfl
  | cons c rest ih =>
      rw [allNums?]
      obtain ⟨x, hx⟩ := Option.isSome_iff_exists.mp (h c (List.mem_cons_self c rest))
      rw [hx, ih (fun v hv => h v (List.mem_cons_of_mem c hv))]
      simp [hx]

theorem reduceGroup_numeric (fn : String) (vs : List Cell)
    (hfn : fn = "mean" ∨ fn = "sum")
    (hne : vs ≠ [])
    (h : ∀ v ∈ vs, (Cell.toNum? v).isSome) :
    reduceGroup fn vs = Except.ok (.num
      (if fn = "mean"
       then (vs.map (fun v => (Cell.toNum? v).getD 0)).sum / vs.length
       else (vs.map (fun v => (Cell.toNum? v).getD 0)).sum)) := by
  have hnums := allNums?_of_isSome vs h
  rcases hfn with rfl | rfl
  · have hlen : (vs.map (fun v => (Cell.toNum? v).getD 0)).length ≠ 0 := by
      simpa using hne
    rw [reduceGroup, if_pos rfl, hnums]
    simp [hlen, hne]
  · rw [reduceGroup, if_neg (by decide), if_pos rfl, hnums]
    simp

theorem reduceKeys_ok (fn : String) (pairs : List (Cell × Cell)) (ks : List Cell)
    (h : ∀ k ∈ ks, ∃ v, reduceGroup fn
      ((pairs.filter (fun p => decide (p.1 = k))).map Prod.snd) = Except.ok v) :
    ∃ out, reduceKeys fn pairs ks = Except.ok out ∧ out.map Prod.fst = ks ∧
      ∀ kv ∈ out, reduceGroup fn
        ((pairs.filter (fun p => decide (p.1 = kv.1))).map Prod.snd) =
          Except.ok kv.2 := by
  induction ks with
  | nil => exact ⟨[], rfl, rfl, by simp⟩
  | cons k rest ih =>
      obtain ⟨v, hv⟩ := h k (List.mem_cons_self k rest)
      obtain ⟨out, hout, hfst, hval⟩ := ih (fun q hq => h q (List.mem_cons_of_mem k hq))
      refine ⟨(k, v) :: out, ?_, by simp [hfst], ?_⟩
      · rw [reduceKeys, hv]
        simp [bind, Except.bind, hout]
      · intro kv hkv
        rcases List.mem_cons.mp hkv with rfl | h2
        · exact hv
        · exact hval kv h2

/-- C5 (amended): grouped aggregation of a row-aligned numeric value column
by an existing column succeeds PROVIDED the value series is not named like
the group column (else `temp_df.groupby` raises `ValueError`, see the C5
counterexample); its keys are the distinct values of the group column in
ascending order, and each entry is the mean (resp. sum) of the value column
over the rows sharing that key. -/
theorem aggregation_mean_sum_sorted_groups (df : DataFrame) (s : Series)
    (g : String) (fn : String)
    (hg : g ∈ colNames df)
    (hname : s.name ≠ some g)
    (halign : s.data.map Prod.fst = rowLabels df)
    (hnum : ∀ p ∈ s.data, (Cell.toNum? p.2).isSome)
    (hfn : fn = "mean" ∨ fn = "sum") :
    ∃ out : Series,
      apply_aggregation df (.series s) (.str g) (.obj [("func", .str fn)]) =
        Except.ok out ∧
      (out.data.map Prod.fst).Sorted cellLeP ∧
      (out.data.map Prod.fst).Nodup ∧
      (∀ k, k ∈ out.data.map Prod.fst ↔ k ∈ columnCells df g) ∧
      ∀ kv ∈ out.data, kv.2 = .num
        (if fn = "mean"
         then (groupNums df s g kv.1).sum / (groupNums df s g kv.1).length
         else (groupNums df s g kv.1).sum) := by
  obtain ⟨i, hi⟩ := colNames_findIdx df g hg
  have hgc : getColJ df (.str g) = Except.ok
      ⟨(df.cols[i]?.map Prod.snd).getD .object,
       df.rows.map (fun r => (r.1, r.2[i]?.getD (.num 0))), some g⟩ := by
    simp [getColJ, getCol, hi]
  have hclash : seriesNameClash (J.str g) s.name = false := by
    cases hn : s.name with
    | none => rfl
    | some sn =>
        have hns : g ≠ sn := fun hcon => hname (by rw [hn, hcon])
        simp [seriesNameClash, hns]
  have hlab : (df.rows.map (fun r => (r.1, r.2[i]?.getD (Cell.num 0)))).map Prod.fst =
      s.data.map Prod.fst := by
    rw [halign]
    simp [rowLabels]
  have hcc : (df.rows.map (fun r => (r.1, r.2[i]?.getD (Cell.num 0)))).map Prod.snd =
      columnCells df g := by
    simp [columnCells, hi, List.map_map]
  have hlen : (columnCells df g).length = (s.data.map Prod.snd).length := by
    rw [← hcc, List.length_map, List.length_map, List.length_map]
    have := congrArg List.length halign
    simpa [rowLabels] using this.symm
  have hfst : ((columnCells df g).zip (s.data.map Prod.snd)).map Prod.fst =
      columnCells df g :=
    List.map_fst_zip _ _ (le_of_eq hlen)
  have hmem : AGGREGATION_FUNCTIONS.contains fn = true := by
    rcases hfn with rfl | rfl <;> rfl
  have hred : ∀ k ∈ List.insertionSort cellLeP
      (((columnCells df g).zip (s.data.map Prod.snd)).map Prod.fst).dedup,
      reduceGroup fn
        ((((columnCells df g).zip (s.data.map Prod.snd)).filter
          (fun p => decide (p.1 = k))).map Prod.snd) = Except.ok (.num
        (if fn = "mean"
         then (groupNums df s g k).sum / (groupNums df s g k).length
         else (groupNums df s g k).sum)) := by
    intro k hk
    have hk2 : k ∈ ((columnCells df g).zip (s.data.map Prod.snd)).map Prod.fst :=
      List.mem_dedup.mp ((List.perm_insertionSort _ _).mem_iff.mp hk)
    obtain ⟨p0, hp0, hp0k⟩ := List.mem_map.mp hk2
    have hp0f : p0 ∈ ((columnCells df g).zip (s.data.map Prod.snd)).filter
        (fun p => decide (p.1 = k)) :=
      List.mem_filter.mpr ⟨hp0, by simp [hp0k]⟩
    have hne : (((columnCells df g).zip (s.data.map Prod.snd)).filter
        (fun p => decide (p.1 = k))).map Prod.snd ≠ [] := by
      intro hcon
      rw [List.map_eq_nil_iff] at hcon
      rw [hcon] at hp0f
      exact List.not_mem_nil p0 hp0f
    have hnums : ∀ v ∈ (((columnCells df g).zip (s.data.map Prod.snd)).filter
        (fun p => decide (p.1 = k))).map Prod.snd, (Cell.toNum? v).isSome := by
      intro v hv
      obtain ⟨p, hpf, hpv⟩ := List.mem_map.mp hv
      obtain ⟨a, b⟩ := p
      have hpz := List.mem_of_mem_filter hpf
      have hbs : b ∈ s.data.map Prod.snd := (List.of_mem_zip hpz).2
      obtain ⟨q, hq, hqb⟩ := List.mem_map.mp hbs
      rw [← hpv]
      simpa [hqb] using hnum q hq
    rw [reduceGroup_numeric fn _ hfn hne hnums]
    congr 1
    simp only [groupNums, List.length_map]
  obtain ⟨out, hout, hofst, hoval⟩ := reduceKeys_ok fn
    ((columnCells df g).zip (s.data.map Prod.snd))
    (List.insertionSort cellLeP
      (((columnCells df g).zip (s.data.map Prod.snd)).map Prod.fst).dedup)
    (fun k hk => ⟨_, hred k hk⟩)
  refine ⟨⟨aggDtype fn s.dtype, out, s.name⟩, ?_, ?_, ?_, ?_, ?_⟩
  · rw [apply_aggregation]
    simp only [hgc, bind, Except.bind, pure, Except.pure]
    rw [if_pos hlab]
    simp only [dictGet, jLookup, pyStrKeyGet, hmem, if_pos, bind, Except.bind]
    simp only [show (("func" : String) == "func") = true from rfl]
    simp [hcc, hmem, hclash, hout]
    rw [if_pos (show fn ∈ AGGREGATION_FUNCTIONS by simpa using hmem)]
    simp [hclash, hout]
  · rw [hofst]
    exact List.sorted_insertionSort cellLeP _
  · rw [hofst]
    exact ((List.perm_insertionSort _ _).nodup_iff).mpr (List.nodup_dedup _)
  · intro k
    rw [hofst]
    rw [(List.perm_insertionSort _ _).mem_iff, List.mem_dedup, hfst]
  · intro kv hkv
    have hk : kv.1 ∈ List.insertionSort cellLeP
        (((columnCells df g).zip (s.data.map Prod.snd)).map Prod.fst).dedup := by
      rw [← hofst]
      exact List.mem_map_of_mem Prod.fst hkv
    have := (hred kv.1 hk).symm.trans (hoval kv hkv)
    simpa using this.symm

/-- The `param2` column of `dfGroup` as a row-aligned series (named
`param2`, as `df["param2"]` yields it). -/
def sGroupVals : Series :=
  ⟨.int64, [(.num 0, .num 1), (.num 1, .num 2), (.num 2, .num 3)], some "param2"⟩

/-- C5 witness: the theorem applied to `dfGroup`, its `param2` values and
group column `param1`, with `mean`. -/
theorem aggregation_mean_sum_sorted_groups_witness :
    ∃ out : Series,
      apply_aggregation dfGroup (.series sGroupVals) (.str "param1")
          (.obj [("func", .str "mean")]) = Except.ok out ∧
      (out.data.map Prod.fst).Sorted cellLeP ∧
      (out.data.map Prod.fst).Nodup ∧
      (∀ k, k ∈ out.data.map Prod.fst ↔ k ∈ columnCells dfGroup "param1") ∧
      ∀ kv ∈ out.data, kv.2 = .num
        (if "mean" = "mean"
         then (groupNums dfGroup sGroupVals "param1" kv.1).sum /
           (groupNums dfGroup sGroupVals "param1" kv.1).length
         else (groupNums dfGroup sGroupVals "param1" kv.1).sum) :=
  aggregation_mean_sum_sorted_groups dfGroup sGroupVals "param1" "mean"
    (by simp [colNames, dfGroup])
    (by simp [sGroupVals])
    (by simp [sGroupVals, rowLabels, dfGroup])
    (by decide)
    (Or.inl rfl)

/-- C5 counterexample: the claim promises a grouped result for EVERY
row-aligned numeric value column, but when that column is the group column
itself — `{select: "param1", group_by: "param1", aggregate: {func: "mean"}}`,
which `validate_config` accepts — the selected series is named like the
group column, `pd.concat` gives `temp_df` two columns both named `param1`,
and `temp_df.groupby("param1")` raises
`ValueError ("Grouper for param1 not 1-dimensional")` instead of returning a
grouped series. -/
theorem aggregation_group_column_as_values_raises_valueError :
    validate_config
        (.obj [("select", .str "param1"), ("group_by", .str "param1"),
               ("aggregate", .obj [("func", .str "mean")])]) (colNames dfGroup) =
      Except.ok () ∧
    apply_aggregation dfGroup
        (.series ⟨.int64,
          [(.num 0, .num 0), (.num 1, .num 0), (.num 2, .num 1)], some "param1"⟩)
        (.str "param1") (.obj [("func", .str "mean")]) =
      Except.error .valueError ∧
    ExpressionParser.evaluate ⟨dfGroup⟩
        (.obj [("select", .str "param1"), ("group_by", .str "param1"),
               ("aggregate", .obj [("func", .str "mean")])]) =
      Except.error .valueError := by
  refine ⟨?_, ?_, ?_⟩
  · simp [validate_config, _validate_select_expression, _validate_aggregation,
      jLookup, jHasKey, jInStrList, pyStrKeyGet, AGGREGATION_FUNCTIONS,
      validConfigKeys, colNames, dfGroup, bind, Except.bind]
  · simp [apply_aggregation, getColJ, getCol, dfGroup, dictGet, jLookup,
      pyStrKeyGet, AGGREGATION_FUNCTIONS, seriesNameClash, bind, Except.bind,
      pure, Except.pure]
  · simp [ExpressionParser.evaluate, applyConfigFilter, validate_config,
      _validate_select_expression, _validate_aggregation, jLookup, jHasKey,
      jInStrList, pyStrKeyGet, AGGREGATION_FUNCTIONS, validConfigKeys, colNames,
      dfGroup, dictGet, parse_expression, evaluate_ast, apply_aggregation,
      getColJ, getCol, seriesNameClash, bind, Except.bind, pure, Except.pure]

/-! ## C1 -/

/-- The error kinds the claim forbids after successful validation: operator /
aggregation / expression-shape support errors and column-lookup (schema)
errors. -/
def schemaOrSupportError : PyErr → Bool
  | .unsupportedOperator => true
  | .unsupportedAggregation => true
  | .invalidExpressionFormat => true
  | .keyError => true
  | _ => false

theorem validate_config_obj (j : J) (cols : List String)
    (hv : validate_config j cols = Except.ok ()) :
    ∃ fields, j = J.obj fields := by
  match j with
  | .obj fields => exact ⟨fields, rfl⟩
  | .num _ | .str _ | .bool _ | .null | .arr _ =>
      simp only [validate_config] at hv
      split at hv <;> simp at hv

theorem except_bind_ok {α β : Type} {x : Except PyErr α} {f : α → Except PyErr β}
    {b : β} (h : x >>= f = Except.ok b) :
    ∃ a, x = Except.ok a ∧ f a = Except.ok b := by
  cases x with
  | error e => simp [bind, Except.bind] at h
  | ok a => exact ⟨a, rfl, by simpa [bind, Except.bind] using h⟩

/-- Decomposition of a successful `validate_config` run into the per-key
facts the pipeline needs. -/
theorem validate_config_parts (fields : List (String × J)) (cols : List String)
    (hv : validate_config (.obj fields) cols = Except.ok ()) :
    (∃ sel, jLookup fields "select" = some sel ∧
      _validate_select_expression sel cols = Except.ok ()) ∧
    (∀ fl, jLookup fields "filter" = some fl →
      _validate_filters fl cols = Except.ok ()) ∧
    (∀ agg, jLookup fields "aggregate" = some agg →
      _validate_aggregation agg = Except.ok () ∧
      ∃ gb, jLookup fields "group_by" = some gb ∧ jInStrList gb cols = true) := by
  rw [validate_config] at hv
  split at hv
  · simp at hv
  · cases hsel : jLookup fields "select" with
    | none => rw [hsel] at hv; simp at hv
    | some sel =>
        rw [hsel] at hv
        obtain ⟨u1, h1, hv⟩ := except_bind_ok hv
        obtain ⟨u2, h2, hv⟩ := except_bind_ok hv
        obtain ⟨u3, h3, hv⟩ := except_bind_ok hv
        cases u1
        cases u2
        cases u3
        refine ⟨⟨sel, rfl, h1⟩, ?_, ?_⟩
        · intro fl hfl
          rw [hfl] at h2
          exact h2
        · intro agg hagg
          rw [hagg] at h3
          cases hgb : jLookup fields "group_by" with
          | none => rw [hgb] at h3; simp at h3
          | some gb =>
              rw [hgb] at h3
              by_cases hin : jInStrList gb cols = true
              · simp only [hin, if_pos] at h3
                exact ⟨h3, gb, rfl, hin⟩
              · simp [hin] at h3

theorem except_bind_error {α β : Type} {x : Except PyErr α} {f : α → Except PyErr β}
    {e : PyErr} (h : x >>= f = Except.error e) :
    x = Except.error e ∨ ∃ a, x = Except.ok a ∧ f a = Except.error e := by
  cases x with
  | error e2 =>
      left
      have : e2 = e := by simpa [bind, Except.bind] using h
      rw [this]
  | ok a => exact Or.inr ⟨a, rfl, by simpa [bind, Except.bind] using h⟩

theorem pyStrKeyGet_some (x : J) (keys : List String) (s : String)
    (h : pyStrKeyGet x keys = Except.ok (some s)) : x = .str s ∧ s ∈ keys := by
  cases x <;> simp [pyStrKeyGet] at h
  case str s0 =>
    obtain ⟨hmem2, rfl⟩ := h
    exact ⟨rfl, hmem2⟩

theorem cellGtJ_error (c : Cell) (v : J) (e : PyErr)
    (h : cellGtJ c v = Except.error e) : e = .typeError := by
  rw [cellGtJ.eq_def] at h
  split at h <;>
    first
      | (exact (Except.error.inj h).symm)
      | (split at h <;> first | (exact (Except.error.inj h).symm) | (simp at h))
      | (simp at h)

theorem cellLtJ_error (c : Cell) (v : J) (e : PyErr)
    (h : cellLtJ c v = Except.error e) : e = .typeError := by
  rw [cellLtJ.eq_def] at h
  split at h <;>
    first
      | (exact (Except.error.inj h).symm)
      | (split at h <;> first | (exact (Except.error.inj h).symm) | (simp at h))
      | (simp at h)

theorem cellEqJ_error (c : Cell) (v : J) (e : PyErr)
    (h : cellEqJ c v = Except.error e) : e = .typeError := by
  rw [cellEqJ.eq_def] at h
  split at h <;>
    first
      | (exact (Except.error.inj h).symm)
      | (split at h <;>
          first
            | (exact (Except.error.inj h).symm)
            | (split at h <;> first | (exact (Except.error.inj h).symm) | (simp at h))
            | (simp at h))
      | (simp at h)

theorem cellCmp_error (op : String) (c : Cell) (v : J) (e : PyErr)
    (hmem : op ∈ FILTER_OPERATORS)
    (h : cellCmp op c v = Except.error e) : e = .typeError := by
  have : op = ">" ∨ op = "<" ∨ op = "==" := by simpa [FILTER_OPERATORS] using hmem
  rcases this with rfl | rfl | rfl
  · rw [cellCmp, if_pos rfl] at h
    exact cellGtJ_error c v e h
  · rw [cellCmp, if_neg (by decide), if_pos rfl] at h
    exact cellLtJ_error c v e h
  · rw [cellCmp, if_neg (by decide), if_neg (by decide), if_pos rfl] at h
    exact cellEqJ_error c v e h

theorem buildMask_error (op : String) (v : J) (ps : List (Cell × Cell)) (e : PyErr)
    (hmem : op ∈ FILTER_OPERATORS)
    (h : buildMask op v ps = Except.error e) : e = .typeError := by
  induction ps with
  | nil => simp [buildMask] at h
  | cons p rest ih =>
      rw [buildMask] at h
      rcases except_bind_error h with h1 | ⟨b, hb, h2⟩
      · exact cellCmp_error op p.2 v e hmem h1
      · rcases except_bind_error h2 with h3 | ⟨bs, hbs, h4⟩
        · exact ih h3
        · simp [pure, Except.pure] at h4

/-- Decomposition of a validated filter condition. -/
theorem validate_filter_item_parts (f : J) (cols : List String)
    (h : _validate_filter_item f cols = Except.ok ()) :
    ∃ kvs c opJ op valJ, f = J.obj kvs ∧
      jLookup kvs "column" = some (J.str c) ∧ c ∈ cols ∧
      jLookup kvs "op" = some opJ ∧
      pyStrKeyGet opJ FILTER_OPERATORS = Except.ok (some op) ∧
      jLookup kvs "value" = some valJ := by
  match f with
  | .num _ | .str _ | .bool _ | .null | .arr _ => simp [_validate_filter_item] at h
  | .obj kvs =>
      rw [_validate_filter_item] at h
      split at h
      · simp at h
      · rename_i hkeys
        have hfalse : (!jHasKey kvs "column" || !jHasKey kvs "op" ||
            !jHasKey kvs "value") = false := Bool.eq_false_iff.mpr hkeys
        simp only [Bool.or_eq_false_iff, Bool.not_eq_false'] at hfalse
        obtain ⟨⟨hk1, hk2⟩, hk3⟩ := hfalse
        obtain ⟨colJ, hcol⟩ := Option.isSome_iff_exists.mp
          (show (jLookup kvs "column").isSome = true from hk1)
        rw [show dictGet kvs "column" = Except.ok colJ by simp [dictGet, hcol]] at h
        simp only [bind, Except.bind] at h
        split at h
        · simp at h
        · rename_i hin
          simp only [Bool.not_eq_true'] at hin
          have hin2 : jInStrList colJ cols = true := by
            simpa using hin
          obtain ⟨c, rfl, hcmem⟩ : ∃ c, colJ = J.str c ∧ c ∈ cols := by
            cases colJ <;> simp [jInStrList] at hin2
            case str s => exact ⟨s, rfl, by simpa using hin2⟩
          obtain ⟨opJ, hop⟩ := Option.isSome_iff_exists.mp
            (show (jLookup kvs "op").isSome = true from hk2)
          rw [show dictGet kvs "op" = Except.ok opJ by simp [dictGet, hop]] at h
          simp only [bind, Except.bind] at h
          rcases hpk : pyStrKeyGet opJ FILTER_OPERATORS with e2 | op?
          · rw [hpk] at h; simp at h
          · rw [hpk] at h
            simp only [] at h
            split at h
            · simp at h
            · rename_i hnone
              have hnone2 : op?.isNone = false := Bool.eq_false_iff.mpr hnone
              obtain ⟨op, rfl⟩ := Option.isSome_iff_exists.mp
                ((Option.isNone_eq_false_iff op?).mp hnone2)
              obtain ⟨valJ, hval⟩ := Option.isSome_iff_exists.mp
                (show (jLookup kvs "value").isSome = true from hk3)
              exact ⟨kvs, c, opJ, op, valJ, rfl, hcol, hcmem, hop, hpk, hval⟩

theorem filterStep_validated_error (df : DataFrame) (f : J) (e : PyErr)
    (hval : _validate_filter_item f (colNames df) = Except.ok ())
    (h : filterStep df f = Except.error e) : e = .typeError := by
  obtain ⟨kvs, c, opJ, op, valJ, rfl, hcol, hcmem, hop, hpk, hvalk⟩ :=
    validate_filter_item_parts f (colNames df) hval
  obtain ⟨rfl, hopmem⟩ := pyStrKeyGet_some opJ FILTER_OPERATORS op hpk
  obtain ⟨i, hi⟩ := colNames_findIdx df c hcmem
  rw [filterStep] at h
  rw [show dictGet kvs "column" = Except.ok (J.str c) by simp [dictGet, hcol]] at h
  simp only [bind, Except.bind] at h
  rw [show dictGet kvs "op" = Except.ok (J.str op) by simp [dictGet, hop]] at h
  simp only [] at h
  rw [show dictGet kvs "value" = Except.ok valJ by simp [dictGet, hvalk]] at h
  simp only [] at h
  rw [hpk] at h
  simp only [] at h
  rw [show getColJ df (J.str c) = Except.ok
    ⟨(df.cols[i]?.map Prod.snd).getD .object,
     df.rows.map (fun r => (r.1, r.2[i]?.getD (.num 0))),
     some c⟩ by simp [getColJ, getCol, hi]] at h
  simp only [] at h
  rcases except_bind_error h with h1 | ⟨mask, hmask, h2⟩
  · exact buildMask_error op valJ _ e hopmem h1
  · simp at h2

theorem apply_filters_validated_error (fs : List J) (df : DataFrame) (e : PyErr)
    (hval : _validate_filter_items fs (colNames df) = Except.ok ())
    (h : apply_filters df fs = Except.error e) : e = .typeError := by
  induction fs generalizing df with
  | nil => simp [apply_filters] at h
  | cons f rest ih =>
      rw [_validate_filter_items] at hval
      obtain ⟨u, hitem, hrest⟩ := except_bind_ok hval
      cases u
      rw [apply_filters] at h
      rcases except_bind_error h with h1 | ⟨d1, hd1, h2⟩
      · exact filterStep_validated_error df f e hitem h1
      · have hcols : colNames d1 = colNames df := by
          unfold colNames
          rw [(filterStep_ok df d1 f hd1).2.1]
        apply ih d1
        · rwa [hcols]
        · exact h2

theorem validate_filters_parts (fl : J) (cols : List String)
    (h : _validate_filters fl cols = Except.ok ()) :
    ∃ fs, fl = J.arr fs ∧ _validate_filter_items fs cols = Except.ok () := by
  match fl with
  | .num _ | .str _ | .bool _ | .null | .obj _ => simp [_validate_filters] at h
  | .arr fs =>
      rw [_validate_filters] at h
      split at h
      · simp at h
      · exact ⟨fs, rfl, h⟩

theorem applyConfigFilter_validated_error (df : DataFrame)
    (fields : List (String × J)) (e : PyErr)
    (hparts : ∀ fl, jLookup fields "filter" = some fl →
      _validate_filters fl (colNames df) = Except.ok ())
    (h : applyConfigFilter df (.obj fields) = Except.error e) : e = .typeError := by
  rw [applyConfigFilter] at h
  cases hfl : jLookup fields "filter" with
  | none => rw [hfl] at h; simp at h
  | some fl =>
      rw [hfl] at h
      obtain ⟨fs, rfl, hitems⟩ := validate_filters_parts fl (colNames df) (hparts fl hfl)
      exact apply_filters_validated_error fs df e hitems h

/-- The invariant validation establishes on the AST the builder produces:
referenced columns exist, operators are registered, no function nodes. -/
def astOk (cols : List String) : ASTNode → Prop
  | .columnRef c => c ∈ cols
  | .literal _ => True
  | .binaryOp op l r => op ∈ SUPPORTED_BINARY_OPS ∧ astOk cols l ∧ astOk cols r
  | .functionNode _ _ => False

/-- A validated select expression always parses, and the resulting AST only
mentions known columns and registered operators. -/
theorem parse_of_validated (sel : J) (cols : List String) :
    _validate_select_expression sel cols = Except.ok () →
    ∃ a, parse_expression sel = Except.ok a ∧ astOk cols a := by
  induction sel, cols using _validate_select_expression.induct with
  | case1 cols s hcont =>
      intro h
      refine ⟨.columnRef s, by rw [parse_expression], ?_⟩
      simpa [astOk] using hcont
  | case2 cols s hcont =>
      intro h
      rw [_validate_select_expression, if_neg hcont] at h
      simp at h
  | case3 cols q =>
      intro h
      exact ⟨.literal (.num q), by rw [parse_expression], trivial⟩
  | case4 cols b =>
      intro h
      exact ⟨.literal (.bool b), by rw [parse_expression], trivial⟩
  | case5 cols fields hop =>
      intro h
      simp [_validate_select_expression.eq_def, hop] at h
  | case6 cols fields op hop hlr =>
      intro h
      rw [_validate_select_expression.eq_def] at h
      simp only [hop, hlr, if_pos, if_true] at h
      simp at h
  | case7 cols fields op hop hlr e hpk =>
      intro h
      rw [_validate_select_expression.eq_def] at h
      simp only [hop, hpk] at h
      rw [if_neg hlr] at h
      simp at h
  | case8 cols fields op hop hlr hpk =>
      intro h
      rw [_validate_select_expression.eq_def] at h
      simp only [hop, hpk] at h
      rw [if_neg hlr] at h
      simp at h
  | case9 cols fields op hop hlr s hpk l r hl hr ihl ihr =>
      intro h
      rw [_validate_select_expression.eq_def] at h
      simp only [hop] at h
      rw [if_neg hlr] at h
      simp only [hpk] at h
      split at h
      · rename_i l2 r2 hl2 hr2
        rw [hl] at hl2
        rw [hr] at hr2
        cases hl2
        cases hr2
        obtain ⟨u1, hvl, hvr⟩ := except_bind_ok h
        cases u1
        obtain ⟨la, hla, hoka⟩ := ihl hvl
        obtain ⟨ra, hra, hokb⟩ := ihr hvr
        obtain ⟨rfl, hsmem⟩ := pyStrKeyGet_some op SUPPORTED_BINARY_OPS s hpk
        refine ⟨.binaryOp s la ra, ?_, hsmem, hoka, hokb⟩
        rw [parse_expression.eq_def]
        simp only [hop, hl, hla, hr, hra, hpk]
        split
        · rename_i hl3
          rw [hl] at hl3
          simp at hl3
        · rename_i l3 hl3
          rw [hl] at hl3
          cases hl3
          simp only [hla]
          split
          · rename_i hr3
            rw [hr] at hr3
            simp at hr3
          · rename_i r3 hr3
            rw [hr] at hr3
            cases hr3
            simp only [hra, hpk]
      · simp at h
  | case10 cols fields op hop hlr s hpk hcon =>
      intro h
      simp only [Bool.or_eq_true, not_or, Bool.not_eq_true] at hlr
      obtain ⟨l, hl⟩ := Option.isSome_iff_exists.mp
        ((Option.isNone_eq_false_iff _).mp hlr.1)
      obtain ⟨r, hr⟩ := Option.isSome_iff_exists.mp
        ((Option.isNone_eq_false_iff _).mp hlr.2)
      exact absurd (hcon l r hl hr) (by simp)
  | case11 expr cols h1 h2 h3 h4 =>
      intro h
      rw [_validate_select_expression.eq_def] at h
      match expr, h1, h2, h3, h4 with
      | J.null, _, _, _, _ => simp at h
      | J.arr xs, _, _, _, _ => simp at h
      | J.str s, h1, _, _, _ => exact absurd rfl (fun hh => h1 s hh)
      | J.num q, _, h2, _, _ => exact absurd rfl (fun hh => h2 q hh)
      | J.bool b, _, _, h3, _ => exact absurd rfl (fun hh => h3 b hh)
      | J.obj fs, _, _, _, h4 => exact absurd rfl (fun hh => h4 fs hh)

theorem cellAdd_error (a b : Cell) (e : PyErr)
    (h : cellAdd a b = Except.error e) : e = .typeError := by
  rw [cellAdd.eq_def] at h
  split at h <;>
    first
      | (exact (Except.error.inj h).symm)
      | (split at h <;> first | (exact (Except.error.inj h).symm) | (simp at h))
      | (simp at h)

theorem cellSub_error (a b : Cell) (e : PyErr)
    (h : cellSub a b = Except.error e) : e = .typeError := by
  rw [cellSub.eq_def] at h
  split at h <;>
    first
      | (exact (Except.error.inj h).symm)
      | (simp at h)

theorem mapPairsM_error (f : Cell → Except PyErr Cell)
    (hf : ∀ a e, f a = Except.error e → e = .typeError)
    (ps : List (Cell × Cell)) (e : PyErr)
    (h : mapPairsM f ps = Except.error e) : e = .typeError := by
  induction ps with
  | nil => simp [mapPairsM] at h
  | cons p rest ih =>
      rw [mapPairsM] at h
      rcases except_bind_error h with h1 | ⟨c, hc, h2⟩
      · exact hf p.2 e h1
      · rcases except_bind_error h2 with h3 | ⟨cs, hcs, h4⟩
        · exact ih h3
        · simp at h4

theorem zipPairsM_error (f : Cell → Cell → Except PyErr Cell)
    (hf : ∀ a b e, f a b = Except.error e → e = .typeError)
    (ps qs : List (Cell × Cell)) (e : PyErr)
    (h : zipPairsM f ps qs = Except.error e) : e = .typeError := by
  induction ps generalizing qs with
  | nil => simp [zipPairsM] at h
  | cons p rest ih =>
      cases qs with
      | nil => simp [zipPairsM] at h
      | cons q qrest =>
          rw [zipPairsM] at h
          rcases except_bind_error h with h1 | ⟨c, hc, h2⟩
          · exact hf p.2 q.2 e h1
          · rcases except_bind_error h2 with h3 | ⟨cs, hcs, h4⟩
            · exact ih qrest h3
            · simp at h4

theorem liftBinOp_error (f : Cell → Cell → Except PyErr Cell)
    (hf : ∀ a b e, f a b = Except.error e → e = .typeError)
    (l r : Value) (e : PyErr)
    (h : liftBinOp f l r = Except.error e) : e = .typeError := by
  match l, r with
  | .scalar a, .scalar b =>
      rw [liftBinOp] at h
      rcases except_bind_error h with h1 | ⟨c, hc, h2⟩
      · exact hf a b e h1
      · simp at h2
  | .scalar a, .series s =>
      rw [liftBinOp] at h
      rcases except_bind_error h with h1 | ⟨d, hd, h2⟩
      · exact mapPairsM_error _ (fun c => hf a c) s.data e h1
      · simp at h2
  | .series s, .scalar b =>
      rw [liftBinOp] at h
      rcases except_bind_error h with h1 | ⟨d, hd, h2⟩
      · exact mapPairsM_error _ (fun c => hf c b) s.data e h1
      · simp at h2
  | .series s, .series t =>
      rw [liftBinOp] at h
      split at h
      · rcases except_bind_error h with h1 | ⟨d, hd, h2⟩
        · exact zipPairsM_error f hf s.data t.data e h1
        · simp at h2
      · exact (Except.error.inj h).symm

theorem astOk_congr (cols cols2 : List String) (a : ASTNode)
    (heq : cols = cols2) (h : astOk cols a) : astOk cols2 a := heq ▸ h

/-- Evaluating a validated AST can only fail with a host-level `TypeError`
(mis-typed arithmetic): never an operator, schema, or format error. -/
theorem evaluate_ast_validated_error (df : DataFrame) (a : ASTNode) (e : PyErr)
    (hok : astOk (colNames df) a)
    (h : evaluate_ast df a = Except.error e) : e = .typeError := by
  induction a with
  | columnRef c =>
      obtain ⟨i, hi⟩ := colNames_findIdx df c hok
      rw [evaluate_ast] at h
      rcases except_bind_error h with h1 | ⟨s, hs, h2⟩
      · rw [getCol, hi] at h1
        simp at h1
      · simp at h2
  | literal v => simp [evaluate_ast] at h
  | binaryOp op l r ihl ihr =>
      obtain ⟨hop, hl, hr⟩ := hok
      rw [evaluate_ast] at h
      rcases except_bind_error h with h1 | ⟨lv, hlv, h2⟩
      · exact ihl hl h1
      rcases except_bind_error h2 with h3 | ⟨rv, hrv, h4⟩
      · exact ihr hr h3
      have hops : op = "+" ∨ op = "-" := by
        simpa [SUPPORTED_BINARY_OPS] using hop
      rcases hops with rfl | rfl
      · rw [show BINARY_OPERATORS.find? (fun p => p.1 == "+") =
            some ("+", liftBinOp cellAdd) from rfl] at h4
        exact liftBinOp_error cellAdd (fun a b => cellAdd_error a b) lv rv e h4
      · rw [show BINARY_OPERATORS.find? (fun p => p.1 == "-") =
            some ("-", liftBinOp cellSub) from rfl] at h4
        exact liftBinOp_error cellSub (fun a b => cellSub_error a b) lv rv e h4
  | functionNode name arg ih => exact absurd hok (by simp [astOk])

theorem validate_aggregation_parts (agg : J)
    (h : _validate_aggregation agg = Except.ok ()) :
    ∃ kvs funcJ fn, agg = J.obj kvs ∧ jLookup kvs "func" = some funcJ ∧
      pyStrKeyGet funcJ AGGREGATION_FUNCTIONS = Except.ok (some fn) := by
  match agg with
  | .num _ | .str _ | .bool _ | .null | .arr _ => simp [_validate_aggregation] at h
  | .obj kvs =>
      rw [_validate_aggregation] at h
      cases hf : jLookup kvs "func" with
      | none => rw [hf] at h; simp at h
      | some funcJ =>
          rw [hf] at h
          simp only [] at h
          cases hpk : pyStrKeyGet funcJ AGGREGATION_FUNCTIONS with
          | error e => rw [hpk] at h; simp at h
          | ok o =>
              cases o with
              | none => rw [hpk] at h; simp at h
              | some fn => exact ⟨kvs, funcJ, fn, rfl, hf, hpk⟩

theorem reduceGroup_registry_error (fn : String) (vs : List Cell) (e : PyErr)
    (hfn : fn ∈ AGGREGATION_FUNCTIONS)
    (h : reduceGroup fn vs = Except.error e) : e = .typeError := by
  have : fn = "mean" ∨ fn = "sum" := by simpa [AGGREGATION_FUNCTIONS] using hfn
  rcases this with rfl | rfl
  · rw [reduceGroup, if_pos rfl] at h
    split at h <;>
      first
        | (exact (Except.error.inj h).symm)
        | (split at h <;> first | (exact (Except.error.inj h).symm) | (simp at h))
        | (simp at h)
  · rw [reduceGroup, if_neg (by decide), if_pos rfl] at h
    split at h <;>
      first
        | (exact (Except.error.inj h).symm)
        | (split at h <;> first | (exact (Except.error.inj h).symm) | (simp at h))
        | (simp at h)

theorem reduceKeys_registry_error (fn : String) (pairs : List (Cell × Cell))
    (ks : List Cell) (e : PyErr)
    (hfn : fn ∈ AGGREGATION_FUNCTIONS)
    (h : reduceKeys fn pairs ks = Except.error e) : e = .typeError := by
  induction ks with
  | nil => simp [reduceKeys] at h
  | cons k rest ih =>
      rw [reduceKeys] at h
      rcases except_bind_error h with h1 | ⟨v, hv, h2⟩
      · exact reduceGroup_registry_error fn _ e hfn h1
      · rcases except_bind_error h2 with h3 | ⟨out, hout, h4⟩
        · exact ih h3
        · simp at h4

/-- With a validated aggregation spec and a known group column,
`apply_aggregation` can only fail with `TypeError` (scalar input,
non-numeric data, index mismatch) or the groupby `ValueError` (value series
named like the group column) — never `UnsupportedAggregation` or a lookup
error. -/
theorem apply_aggregation_validated_error (df : DataFrame) (v : Value)
    (gb agg : J) (e : PyErr)
    (hgb : jInStrList gb (colNames df) = true)
    (hagg : _validate_aggregation agg = Except.ok ())
    (h : apply_aggregation df v gb agg = Except.error e) :
    e = .typeError ∨ e = .valueError := by
  obtain ⟨g, rfl, hgmem⟩ : ∃ g, gb = J.str g ∧ g ∈ colNames df := by
    cases gb <;> simp [jInStrList] at hgb
    case str s => exact ⟨s, rfl, by simpa using hgb⟩
  obtain ⟨kvs, funcJ, fn, rfl, hfunc, hpk⟩ := validate_aggregation_parts agg hagg
  obtain ⟨i, hi⟩ := colNames_findIdx df g hgmem
  rw [apply_aggregation] at h
  rw [show getColJ df (J.str g) = Except.ok
    ⟨(df.cols[i]?.map Prod.snd).getD .object,
     df.rows.map (fun r => (r.1, r.2[i]?.getD (.num 0))),
     some g⟩ by simp [getColJ, getCol, hi]] at h
  simp only [bind, Except.bind] at h
  match v with
  | .scalar c => exact Or.inl (Except.error.inj h).symm
  | .series s =>
      simp only [pure, Except.pure] at h
      split at h
      · rw [show dictGet kvs "func" = Except.ok funcJ by simp [dictGet, hfunc]] at h
        simp only [] at h
        rw [hpk] at h
        simp only [] at h
        by_cases hcl : seriesNameClash (J.str g) s.name = true
        · rw [if_pos hcl] at h
          exact Or.inr (Except.error.inj h).symm
        · rw [if_neg hcl] at h
          rcases except_bind_error h with h1 | ⟨out, hout, h2⟩
          · exact Or.inl (reduceKeys_registry_error fn _ _ e
              (pyStrKeyGet_some funcJ AGGREGATION_FUNCTIONS fn hpk).2 h1)
          · simp at h2
      · exact Or.inl (Except.error.inj h).symm

/-- After a successful `validate_config`, `ExpressionParser.evaluate` can
only fail with a host-level `TypeError` or the groupby `ValueError`: no
operator, aggregation, expression-format, or column-lookup error survives
validation. -/
theorem evaluate_validated_error (df : DataFrame) (config : J) (e : PyErr)
    (hv : validate_config config (colNames df) = Except.ok ())
    (he : ExpressionParser.evaluate ⟨df⟩ config = Except.error e) :
    e = .typeError ∨ e = .valueError := by
  obtain ⟨fields, rfl⟩ := validate_config_obj config _ hv
  obtain ⟨⟨sel, hsel, hselv⟩, hfilters, haggs⟩ := validate_config_parts fields _ hv
  obtain ⟨a, hparse, hastok⟩ := parse_of_validated sel _ hselv
  simp only [ExpressionParser.evaluate] at he
  rcases except_bind_error he with h1 | ⟨u, hu, he⟩
  · rw [hv] at h1
    simp at h1
  cases u
  rcases except_bind_error he with h2 | ⟨d, hd, he⟩
  · exact Or.inl (applyConfigFilter_validated_error df fields e hfilters h2)
  have hdcols : colNames d = colNames df := by
    unfold colNames
    rw [applyConfigFilter_cols df d _ hd]
  rcases except_bind_error he with h3 | ⟨sel2, hsel2, he⟩
  · rw [show dictGet fields "select" = Except.ok sel by simp [dictGet, hsel]] at h3
    simp at h3
  have hsel2e : sel2 = sel := by
    rw [show dictGet fields "select" = Except.ok sel by simp [dictGet, hsel]] at hsel2
    exact (Except.ok.inj hsel2).symm
  subst hsel2e
  rcases except_bind_error he with h4 | ⟨a2, ha2, he⟩
  · rw [hparse] at h4
    simp at h4
  have ha2e : a2 = a := by
    rw [hparse] at ha2
    exact (Except.ok.inj ha2).symm
  subst ha2e
  rcases except_bind_error he with h5 | ⟨v, hval, he⟩
  · exact Or.inl (evaluate_ast_validated_error d a2 e
      (astOk_congr _ _ a2 hdcols.symm hastok) h5)
  cases hagg : jLookup fields "aggregate" with
  | none =>
      rw [hagg] at he
      simp at he
  | some agg =>
      rw [hagg] at he
      obtain ⟨hvagg, gb, hgb, hgbin⟩ := haggs agg hagg
      rcases except_bind_error he with h6 | ⟨gb2, hgb2, he⟩
      · rw [show dictGet fields "group_by" = Except.ok gb by simp [dictGet, hgb]] at h6
        simp at h6
      have hgb2e : gb2 = gb := by
        rw [show dictGet fields "group_by" = Except.ok gb by simp [dictGet, hgb]] at hgb2
        exact (Except.ok.inj hgb2).symm
      subst hgb2e
      rcases except_bind_error he with h7 | ⟨s, hs, he⟩
      · exact apply_aggregation_validated_error d v gb2 agg e
          (by rw [hdcols]; exact hgbin) hvagg h7
      · simp at he

theorem validate_plot_config_obj (j : J) (cols : List String)
    (hv : validate_plot_config j cols = Except.ok ()) :
    ∃ fields, j = J.obj fields := by
  match j with
  | .obj fields => exact ⟨fields, rfl⟩
  | .num _ | .str _ | .bool _ | .null | .arr _ =>
      simp [validate_plot_config] at hv

theorem validate_plot_config_parts (fields : List (String × J)) (cols : List String)
    (hv : validate_plot_config (.obj fields) cols = Except.ok ()) :
    (∃ sel, jLookup fields "select" = some sel ∧
      validate_config (.obj fields) cols = Except.ok ()) ∨
    (jLookup fields "select" = none ∧ ∃ xc yc,
      jLookup fields "x-values" = some xc ∧ jLookup fields "y-values" = some yc ∧
      validate_config xc cols = Except.ok () ∧
      validate_config yc cols = Except.ok ()) := by
  rw [validate_plot_config] at hv
  cases hsel : jLookup fields "select" with
  | some sel =>
      rw [hsel] at hv
      simp only [] at hv
      split at hv
      · simp at hv
      · exact Or.inl ⟨sel, rfl, hv⟩
  | none =>
      rw [hsel] at hv
      simp only [] at hv
      cases hx : jLookup fields "x-values" with
      | none => rw [hx] at hv; simp at hv
      | some xc =>
          rw [hx] at hv
          cases hy : jLookup fields "y-values" with
          | none => rw [hy] at hv; simp at hv
          | some yc =>
              rw [hy] at hv
              simp only [] at hv
              obtain ⟨u1, hx1, hv⟩ := except_bind_ok hv
              obtain ⟨u2, hy1, hv⟩ := except_bind_ok hv
              cases u1
              cases u2
              exact Or.inr ⟨rfl, xc, yc, rfl, rfl, hx1, hy1⟩

/-- The extra hypothesis C1 needs: in the two-sided plot form (no `select`
key), a top-level `filter`, which `validate_plot_config` does NOT validate,
must validate on its own. -/
def plotTopFilterOk (config : J) (cols : List String) : Prop :=
  ∀ fields, config = J.obj fields → jLookup fields "select" = none →
    ∀ fl, jLookup fields "filter" = some fl →
      _validate_filters fl cols = Except.ok ()

/-- After a successful `validate_plot_config` — and, in the two-sided form,
a separately validated top-level filter — `evaluate_plot_config` can only
fail with a host-level `TypeError` or the groupby `ValueError`. -/
theorem evaluate_plot_validated_error (df : DataFrame) (config : J) (e : PyErr)
    (hv : validate_plot_config config (colNames df) = Except.ok ())
    (hfl : plotTopFilterOk config (colNames df))
    (he : ExpressionParser.evaluate_plot_config ⟨df⟩ config = Except.error e) :
    e = .typeError ∨ e = .valueError := by
  obtain ⟨fields, rfl⟩ := validate_plot_config_obj config _ hv
  simp only [ExpressionParser.evaluate_plot_config] at he
  rcases except_bind_error he with h1 | ⟨u, hu, he⟩
  · rw [hv] at h1
    simp at h1
  cases u
  rcases validate_plot_config_parts fields _ hv with
    ⟨sel, hsel, hvc⟩ | ⟨hsel, xc, yc, hx, hy, hvx, hvy⟩
  · rcases except_bind_error he with h2 | ⟨d, hd, he⟩
    · obtain ⟨_, hfilters, _⟩ := validate_config_parts fields _ hvc
      exact Or.inl (applyConfigFilter_validated_error df fields e hfilters h2)
    have hdcols : colNames d = colNames df := by
      unfold colNames
      rw [applyConfigFilter_cols df d _ hd]
    rw [if_pos (show jHasKey fields "select" = true by simp [jHasKey, hsel])] at he
    rcases except_bind_error he with h3 | ⟨y, hy2, he⟩
    · exact evaluate_validated_error d (.obj fields) e (by rw [hdcols]; exact hvc) h3
    match y with
    | .scalar c =>
        rcases except_bind_error he with h4 | ⟨n, hn, he⟩
        · exact Or.inl (Except.error.inj h4).symm
        · simp at hn
    | .series s =>
        rcases except_bind_error he with h4 | ⟨n, hn, he⟩
        · simp at h4
        · simp at he
  · rcases except_bind_error he with h2 | ⟨d, hd, he⟩
    · exact Or.inl (applyConfigFilter_validated_error df fields e
        (fun fl hfl2 => hfl fields rfl hsel fl hfl2) h2)
    have hdcols : colNames d = colNames df := by
      unfold colNames
      rw [applyConfigFilter_cols df d _ hd]
    rw [if_neg (show ¬jHasKey fields "select" = true by simp [jHasKey, hsel])] at he
    rw [if_pos (show (jHasKey fields "x-values" && jHasKey fields "y-values") = true by
      simp [jHasKey, hx, hy])] at he
    rcases except_bind_error he with h3 | ⟨xc2, hxc2, he⟩
    · rw [show dictGet fields "x-values" = Except.ok xc by simp [dictGet, hx]] at h3
      simp at h3
    have hxc2e : xc2 = xc := by
      rw [show dictGet fields "x-values" = Except.ok xc by simp [dictGet, hx]] at hxc2
      exact (Except.ok.inj hxc2).symm
    subst hxc2e
    rcases except_bind_error he with h4 | ⟨yc2, hyc2, he⟩
    · rw [show dictGet fields "y-values" = Except.ok yc by simp [dictGet, hy]] at h4
      simp at h4
    have hyc2e : yc2 = yc := by
      rw [show dictGet fields "y-values" = Except.ok yc by simp [dictGet, hy]] at hyc2
      exact (Except.ok.inj hyc2).symm
    subst hyc2e
    rcases except_bind_error he with h5 | ⟨x, hxe, he⟩
    · exact evaluate_validated_error d xc2 e (by rw [hdcols]; exact hvx) h5
    rcases except_bind_error he with h6 | ⟨y, hye, he⟩
    · exact evaluate_validated_error d yc2 e (by rw [hdcols]; exact hvy) h6
    · simp at he

/-- A two-sided plot config with a top-level filter naming an unsupported
operator: `validate_plot_config` never looks at that filter. -/
def plotBadFilterConfig : J :=
  .obj [("x-values", .obj [("select", .str "param2")]),
        ("y-values", .obj [("select", .str "param3")]),
        ("filter", .arr [.obj [("column", .str "param2"), ("op", .str "!="),
                               ("value", .num 3)]])]

/-- C1 counterexample: a config that `validate_plot_config` accepts, yet
`evaluate_plot_config` raises `UnsupportedOperator` — the two-sided form
never validates a top-level `filter`, so validation is NOT exhaustive. -/
theorem validated_plot_config_raises_unsupported_operator :
    validate_plot_config plotBadFilterConfig (colNames dfSmall) = Except.ok () ∧
    ExpressionParser.evaluate_plot_config ⟨dfSmall⟩ plotBadFilterConfig =
      Except.error .unsupportedOperator ∧
    schemaOrSupportError .unsupportedOperator = true := by
  refine ⟨?_, ?_, rfl⟩
  · simp [validate_plot_config, plotBadFilterConfig, validate_config,
      _validate_select_expression, jLookup, jGet, jIsNumberOpt, jIsNumber,
      jHasKey, validConfigKeys, colNames, dfSmall, bind, Except.bind]
  · simp [ExpressionParser.evaluate_plot_config, plotBadFilterConfig,
      validate_plot_config, validate_config, _validate_select_expression,
      jLookup, jGet, jIsNumberOpt, jIsNumber, jHasKey, validConfigKeys,
      colNames, dfSmall, applyConfigFilter, apply_filters, filterStep,
      dictGet, pyStrKeyGet, FILTER_OPERATORS, bind, Except.bind]

/-- C1 amended: a config accepted by `validate_config` runs the
filter→build→evaluate→aggregate pipeline without `UnsupportedOperator`,
`UnsupportedAggregation`, `InvalidExpressionFormat`, or column-lookup
(`KeyError`) failures — any failure is a host-level `TypeError` or
`ValueError`.  The same
holds for `validate_plot_config` and `evaluate_plot_config` PROVIDED that a
top-level `filter` in the two-sided (`x-values`/`y-values`) form, which plot
validation skips, validates on its own. -/
theorem validated_configs_no_schema_or_operator_errors :
    (∀ (df : DataFrame) (config : J) (e : PyErr),
      validate_config config (colNames df) = Except.ok () →
      ExpressionParser.evaluate ⟨df⟩ config = Except.error e →
      schemaOrSupportError e = false) ∧
    (∀ (df : DataFrame) (config : J) (e : PyErr),
      validate_plot_config config (colNames df) = Except.ok () →
      plotTopFilterOk config (colNames df) →
      ExpressionParser.evaluate_plot_config ⟨df⟩ config = Except.error e →
      schemaOrSupportError e = false) := by
  constructor
  · intro df config e hv he
    rcases evaluate_validated_error df config e hv he with rfl | rfl <;> rfl
  · intro df config e hv hf he
    rcases evaluate_plot_validated_error df config e hv hf he with rfl | rfl <;> rfl

/-- C1 witness: both halves applied at concrete validated configs that do
fail — the scalar-plus-aggregation config (a `TypeError` inside
`apply_aggregation`) and the all-literal plot select (a `TypeError` from
`len()` of a scalar).  The error kind is not a schema/support error. -/
theorem validated_configs_no_schema_or_operator_errors_witness :
    schemaOrSupportError PyErr.typeError = false ∧
    schemaOrSupportError PyErr.typeError = false := by
  constructor
  · exact validated_configs_no_schema_or_operator_errors.1 dfGroup scalarAggConfig
      PyErr.typeError
      (by simp [validate_config, scalarAggConfig, _validate_select_expression,
        _validate_aggregation, jLookup, jHasKey, jInStrList, pyStrKeyGet,
        AGGREGATION_FUNCTIONS, validConfigKeys, colNames, dfGroup,
        bind, Except.bind])
      (by simp [ExpressionParser.evaluate, scalarAggConfig, applyConfigFilter,
        validate_config, _validate_select_expression, _validate_aggregation,
        jLookup, jHasKey, jInStrList, pyStrKeyGet, AGGREGATION_FUNCTIONS,
        validConfigKeys, colNames, dfGroup, dictGet, parse_expression,
        evaluate_ast, apply_aggregation, getColJ, getCol, bind, Except.bind])
  · exact validated_configs_no_schema_or_operator_errors.2 dfSmall
      literalSumPlotConfig PyErr.typeError
      (by simp [validate_plot_config, literalSumPlotConfig, validate_config,
        _validate_select_expression, jLookup, pyStrKeyGet, SUPPORTED_BINARY_OPS,
        jIsNumber, jHasKey, validConfigKeys, bind, Except.bind])
      (by
        intro fields hfe hsel fl hfl
        simp only [literalSumPlotConfig] at hfe
        cases hfe
        simp [jLookup] at hsel)
      (by simp [ExpressionParser.evaluate_plot_config, ExpressionParser.evaluate,
        applyConfigFilter, validate_plot_config, literalSumPlotConfig,
        validate_config, _validate_select_expression, jLookup, pyStrKeyGet,
        SUPPORTED_BINARY_OPS, jIsNumber, jHasKey, validConfigKeys, dictGet,
        parse_expression, evaluate_ast, BINARY_OPERATORS, liftBinOp, cellAdd,
        Cell.toNum?, bind, Except.bind])

end ExpressionParserSpec
